import Mathlib

/-!
# tox-prpl: presence and contact-lifecycle synchronisation (`src/toxprpl.c`)

A shallow embedding of the status table, the hexadecimal identity codec, the
friend-request workflow, the connection check, the inbound event handlers,
the local status and message paths, and login and logout of `toxprpl.c`.

Conventions of the embedding:

* a C string is the list of its characters before the terminating NUL;
* a C `int` or enumeration value is an `Int`;
* a pointer that may be `NULL` is an `Option`;
* the peer-network library, libpurple and libc are collaborators: the values the
  library returns are read from a `Messenger` record, and every call that has an
  effect outside `toxprpl.c` is appended to the `trace` of the state.
-/

namespace ToxPrpl

/-! ## Collaborators -/

/-- A C string: its characters before the terminating NUL. -/
abbrev CString := List Char

/-- A buffer obtained from `g_malloc`: `none` is a byte that was never written. -/
abbrev Bin := List (Option Nat)

/-- Constants that `toxprpl.c` uses from the header of the peer-network library
(`Messenger.h`). The header is not part of the repository, so the values are
parameters of the embedding. -/
structure ToxHeader where
  USERSTATUS_NONE : Int
  USERSTATUS_AWAY : Int
  USERSTATUS_BUSY : Int
  USERSTATUS_INVALID : Int
  FRIEND_ONLINE : Int
  FAERR_TOOLONG : Int
  FAERR_NOMESSAGE : Int
  FAERR_OWNKEY : Int
  FAERR_ALREADYSENT : Int
  FAERR_UNKNOWN : Int

/-- The values of the library header the plugin was written against: the
enumerations count from zero and the friend-add errors are -1 to -5. -/
def toxcore : ToxHeader where
  USERSTATUS_NONE := 0
  USERSTATUS_AWAY := 1
  USERSTATUS_BUSY := 2
  USERSTATUS_INVALID := 3
  FRIEND_ONLINE := 4
  FAERR_TOOLONG := -1
  FAERR_NOMESSAGE := -2
  FAERR_OWNKEY := -3
  FAERR_ALREADYSENT := -4
  FAERR_UNKNOWN := -5

/-- What the library instance `Messenger *m` (and the DHT behind it) answers
while one callback of the plugin runs. -/
structure Messenger where
  /-- The call `m_friendstatus(m, fnum)`. -/
  m_friendstatus : Int → Int
  /-- The call `m_get_userstatus(m, fnum)`. -/
  m_get_userstatus : Int → Int
  /-- The call `getname(m, fnum, buf)`: the return code and the name left in `buf`. -/
  getname : Int → Int × CString
  /-- The call `getclient_id(m, fnum, buf)`: the return code and the bytes left in `buf`. -/
  getclient_id : Int → Int × List Nat
  /-- The call `getfriend_id(m, bin_key)`. -/
  getfriend_id : Option Bin → Int
  /-- The call `m_addfriend(m, bin_key, msg, len)`. -/
  m_addfriend : Option Bin → CString → Nat → Int
  /-- The call `m_addfriend_norequest(m, bin_key)`. -/
  m_addfriend_norequest : Option Bin → Int
  /-- The call `DHT_isconnected()`. -/
  DHT_isconnected : Int
  /-- The library global `self_public_key`. -/
  self_public_key : List Nat
  /-- The call `getself_name(m, buf)`: the returned length and the name left in `buf`. -/
  getself_name : Nat × CString
  /-- The call `initMessenger()`: whether it returns an instance (not `NULL`). -/
  initMessenger : Bool := true
  /-- The call `Messenger_save(m, buf)`: the `Messenger_size(m)` bytes left in `buf`. -/
  Messenger_save : List Nat := []

/-! ## Status table -/

/-- Modelled from the spec: `CLIENT_ID_SIZE` is `crypto_box_PUBLICKEYBYTES`, a macro of
the crypto library's header that is not in the repository; the spec's
identities are 32 bytes long (64 hexadecimal characters), the size that
`toxprpl.c` itself assumes in `tox_connection_check` and in
`toxprpl_tox_hex_string_to_id`. -/
def CLIENT_ID_SIZE : Nat := 32

/-- The libpurple status primitives named by the status table. -/
inductive PurpleStatusPrimitive where
  | PURPLE_STATUS_AVAILABLE
  | PURPLE_STATUS_AWAY
  | PURPLE_STATUS_UNAVAILABLE
  | PURPLE_STATUS_OFFLINE
  deriving DecidableEq, Repr

/-- The struct `toxprpl_status`. -/
structure toxprpl_status where
  primitive : PurpleStatusPrimitive
  tox_status : Nat
  id : CString
  title : CString
  deriving DecidableEq, Repr

def TOXPRPL_MAX_STATUS : Nat := 4
def TOXPRPL_STATUS_ONLINE : Nat := 0
def TOXPRPL_STATUS_AWAY : Nat := 1
def TOXPRPL_STATUS_BUSY : Nat := 2
def TOXPRPL_STATUS_OFFLINE : Nat := 3

/-- The table `toxprpl_statuses`, row for row as in the source. -/
def toxprpl_statuses : List toxprpl_status :=
  [ { primitive := .PURPLE_STATUS_AVAILABLE, tox_status := TOXPRPL_STATUS_ONLINE,
      id := "tox_online".toList, title := "Online".toList },
    { primitive := .PURPLE_STATUS_AWAY, tox_status := TOXPRPL_STATUS_ONLINE,
      id := "tox_away".toList, title := "Away".toList },
    { primitive := .PURPLE_STATUS_UNAVAILABLE, tox_status := TOXPRPL_STATUS_BUSY,
      id := "tox_busy".toList, title := "Busy".toList },
    { primitive := .PURPLE_STATUS_OFFLINE, tox_status := TOXPRPL_STATUS_OFFLINE,
      id := "tox_offline".toList, title := "Offline".toList } ]

/-- The expression `toxprpl_statuses[i].id`; `none` outside the table. -/
def toxprpl_statuses_id (i : Nat) : Option CString :=
  (toxprpl_statuses.get? i).map fun r => r.id

/-- The function `toxprpl_get_status_index`: the `switch` on the raw status, whose
`USERSTATUS_NONE`, `USERSTATUS_INVALID` and `default` labels share one body. -/
def toxprpl_get_status_index (K : ToxHeader) (m : Messenger) (fnum : Int) (status : Int) : Nat :=
  if status = K.USERSTATUS_AWAY then TOXPRPL_STATUS_AWAY
  else if status = K.USERSTATUS_BUSY then TOXPRPL_STATUS_BUSY
  else if fnum ≠ -1 then
    if m.m_friendstatus fnum = K.FRIEND_ONLINE then TOXPRPL_STATUS_ONLINE
    else TOXPRPL_STATUS_OFFLINE
  else TOXPRPL_STATUS_OFFLINE

/-- The loop of `toxprpl_get_tox_status_from_id` over the rows that are left; `strcmp`
returning 0 is equality of the two strings. -/
def status_from_id_loop (K : ToxHeader) (status_id : CString) : List toxprpl_status → Int
  | [] => K.USERSTATUS_INVALID
  | r :: rest =>
      if r.id = status_id then (r.tox_status : Int)
      else status_from_id_loop K status_id rest

/-- The function `toxprpl_get_tox_status_from_id`: the `tox_status` of the first row
whose id is `status_id`, read as a `USERSTATUS`; `USERSTATUS_INVALID` if there
is none. -/
def toxprpl_get_tox_status_from_id (K : ToxHeader) (status_id : CString) : Int :=
  status_from_id_loop K status_id (toxprpl_statuses.take TOXPRPL_MAX_STATUS)

/-! ## Hexadecimal identities -/

/-- The call `sprintf(p, "%02x", v)`: lowercase hexadecimal, zero-padded to width 2. -/
def sprintf_02x (v : Nat) : List Char :=
  let ds := Nat.toDigits 16 v
  List.replicate (2 - ds.length) '0' ++ ds

/-- The loop of `toxprpl_tox_bin_id_to_string`: `n` iterations left, `p` is
`bin_id + i` (a read past the end of the list reads 0). -/
def bin_id_loop : Nat → List Nat → List Char
  | 0, _ => []
  | n + 1, p => sprintf_02x (p.headD 0 &&& 0xff) ++ bin_id_loop n p.tail

/-- The function `toxprpl_tox_bin_id_to_string`. -/
def toxprpl_tox_bin_id_to_string (bin_id : List Nat) : CString :=
  bin_id_loop CLIENT_ID_SIZE bin_id

/-- The libc predicate `isxdigit` on the ASCII range. -/
def isxdigit (c : Char) : Bool :=
  ('0' ≤ c && c ≤ '9') || ('a' ≤ c && c ≤ 'f') || ('A' ≤ c && c ≤ 'F')

/-- The value of a hexadecimal digit. -/
def hexval (c : Char) : Nat :=
  if '0' ≤ c && c ≤ '9' then c.toNat - 48
  else if 'a' ≤ c && c ≤ 'f' then c.toNat - 87
  else c.toNat - 55

/-- The call `sscanf(p, "%2hhx", &b)`: the byte stored in `b`, or `none` when
nothing is stored. When `p` starts with two hexadecimal digits the conversion
consumes exactly those and stores their value; on every other input the
result is what libc decides (white space, signs, a `0x` prefix, a matching
failure), given by `libc`. -/
def sscanf_2hhx (libc : List Char → Option Nat) (p : List Char) : Option Nat :=
  match p with
  | a :: b :: _ =>
      if isxdigit a && isxdigit b then some ((16 * hexval a + hexval b) % 256)
      else libc p
  | _ => libc p

/-- The loop of `toxprpl_tox_hex_string_to_id`: `n` iterations left, `p` advances by
two characters; the return value of `sscanf` is ignored, so a failed
conversion leaves the byte unwritten. -/
def hex_loop (libc : List Char → Option Nat) : Nat → List Char → Bin
  | 0, _ => []
  | n + 1, p => sscanf_2hhx libc p :: hex_loop libc n (p.drop 2)

/-- The function `toxprpl_tox_hex_string_to_id`: `NULL` unless the length is 64;
otherwise a buffer of `len` bytes whose first `len / 2` bytes are filled by
the loop. -/
def toxprpl_tox_hex_string_to_id (libc : List Char → Option Nat) (hex_string : CString) :
    Option Bin :=
  let len := hex_string.length
  if len ≠ 64 then none
  else some (hex_loop libc (len / 2) hex_string ++ List.replicate (len - len / 2) none)

/-- The check that `%02x` prints the byte `v` as two hexadecimal digits whose value,
read back by `%2hhx`, is `v`. -/
def pair_ok (v : Nat) : Bool :=
  match sprintf_02x v with
  | [a, b] => isxdigit a && isxdigit b && ((16 * hexval a + hexval b) % 256 == v)
  | _ => false

/-- A libc whose `sscanf` stores nothing on input that does not start with two
hexadecimal digits. -/
def libc_strict : List Char → Option Nat := fun _ => none

/-- A library instance with one friend, number 0, who is online with no status set. -/
def m_one_friend : Messenger where
  m_friendstatus := fun f => if f = 0 then 4 else 0
  m_get_userstatus := fun f => if f = 0 then 0 else 3
  getname := fun f => if f = 0 then (0, "bob".toList) else (-1, [])
  getclient_id := fun f => if f = 0 then (0, List.replicate 32 171) else (-1, [])
  getfriend_id := fun _ => 0
  m_addfriend := fun _ _ _ => 0
  m_addfriend_norequest := fun _ => 0
  DHT_isconnected := 1
  self_public_key := List.replicate 32 205
  getself_name := (0, [])

/-! ## Contact list and session state -/

/-- A contact-list entry (`PurpleBuddy`) as far as `toxprpl.c` reads and writes it.
The field `node` is the address of the struct: a `PurpleBuddy *` is followed by
looking the node up in the list. -/
structure PurpleBuddy where
  node : Nat
  name : CString
  /-- The field `alias` of the struct. -/
  local_alias : Option CString
  /-- The pointer `proto_data` to a `toxprpl_buddy_data`: `NULL`, or the cached
  `tox_friendlist_number`. -/
  proto_data : Option Int
  deriving DecidableEq, Repr

/-- The libpurple connection states. -/
inductive PurpleConnectionState where
  | PURPLE_DISCONNECTED
  | PURPLE_CONNECTED
  | PURPLE_CONNECTING
  deriving DecidableEq, Repr

/-- The five callbacks that `toxprpl_login` registers with the library. -/
inductive ToxCallback where
  | on_incoming_message
  | on_nick_change
  | on_status_change
  | on_request
  | on_connectionstatus
  deriving DecidableEq, Repr

/-- The two timer callbacks of `toxprpl.c`. -/
inductive TimerCallback where
  | tox_messenger_loop
  | tox_connection_check
  deriving DecidableEq, Repr

/-- A timeout registered with the event loop: its handle, its interval in
milliseconds, its callback and the connection passed as its data. -/
structure Timer where
  handle : Nat
  interval_ms : Nat
  callback : TimerCallback
  data : Nat
  deriving DecidableEq, Repr

/-- The calls of `toxprpl.c` that act on a collaborator (the user interface, the
account, the peer-network library); contact-list updates are kept in the
state instead. -/
inductive Event where
  /-- The call `purple_request_yes_no`: title, primary text, secondary text and the
  `user_data` handed to both continuations. -/
  | purple_request_yes_no (title primary : CString) (secondary : Option CString)
      (user_data : CString)
  /-- The call `purple_notify_error(g_tox_gc, "Error", msg, NULL)`: `none` is an
  uninitialised `msg`. -/
  | purple_notify_error (msg : Option CString)
  /-- The call `purple_prpl_got_user_status(account, name, status_id, NULL)`. -/
  | purple_prpl_got_user_status (name : CString) (status_id : Option CString)
  | purple_connection_update_progress (text : CString) (step count : Nat)
  | purple_connection_set_state (st : PurpleConnectionState)
  | purple_account_set_username (id : CString)
  | purple_connection_set_display_name (name : CString)
  | m_addfriend (bin_key : Option Bin) (msg : CString) (len : Nat)
  | m_addfriend_norequest (bin_key : Option Bin)
  | getfriend_id (bin_key : Option Bin)
  | setname (name : CString) (len : Nat)
  /-- The call `purple_prpl_got_user_status(NULL, name, status_id, NULL)`: the account
  is `purple_connection_get_account(g_tox_gc)` while `g_tox_gc` is `NULL`. -/
  | purple_prpl_got_user_status_no_account (name : CString) (status_id : Option CString)
  /-- The call `serv_got_im(g_tox_gc, who, msg, PURPLE_MESSAGE_RECV, mtime)`. -/
  | serv_got_im (who msg : CString) (mtime : Nat)
  | m_sendmessage (fnum : Int) (msg : CString) (len : Nat)
  | m_set_userstatus (status : Int)
  | m_set_statusmessage (msg : CString) (len : Nat)
  | initMessenger
  /-- One of the calls `m_callback_friendmessage`, `m_callback_namechange`,
  `m_callback_userstatus`, `m_callback_friendrequest`,
  `m_callback_connectionstatus`, named by the callback it registers. -/
  | m_callback (cb : ToxCallback)
  | purple_connection_set_protocol_data (gc : Nat)
  | Messenger_load (data : List Nat)
  /-- The call `DHT_bootstrap(dht, bin_str)`, where `dht` holds `resolve_addr(ip)` and
  `htons(port)`. -/
  | DHT_bootstrap (ip : CString) (port : Int) (bin_str : Option Bin)
  | cleanupMessenger
  /-- The call `purple_prpl_got_user_status(from->account, to_username, status_id,
  message ? "message" : NULL, message, NULL)` of `discover_status`. -/
  | discover_got_user_status (from_username to_username status_id : CString)
      (message : Option CString)
  deriving DecidableEq, Repr

/-- The globals of `toxprpl.c` together with the one account they serve. -/
structure State where
  /-- The global `g_tox_gc`: `none` is `NULL`. -/
  g_tox_gc : Option Nat
  /-- The global `g_connected`. -/
  g_connected : Int
  /-- The contact list of the account, in list order. -/
  blist : List PurpleBuddy
  /-- The account string `nickname`: `none` when it is not set. -/
  nickname : Option CString
  /-- The address the next `purple_buddy_new` returns. -/
  next_node : Nat
  /-- The collaborator calls made so far, oldest first. -/
  trace : List Event
  /-- The global `g_tox_messenger_timer`, a `guint` initialised to -1. -/
  g_tox_messenger_timer : Nat := 4294967295
  /-- The global `g_tox_connection_timer`, a `guint` initialised to -1. -/
  g_tox_connection_timer : Nat := 4294967295
  /-- The timeouts that are registered with the event loop. -/
  timers : List Timer := []
  /-- The handle the next `purple_timeout_add` returns. -/
  next_timer : Nat := 1
  /-- The account string `messenger`, kept as the bytes it encodes in base64: `none`
  when it is not set. -/
  messenger : Option (List Nat) := none
  /-- The account string `dht_server`: `none` when it is not set. -/
  dht_server : Option CString := none
  /-- The account integer `dht_server_port`: `none` when it is not set. -/
  dht_server_port : Option Int := none
  /-- The account string `dht_server_key`: `none` when it is not set. -/
  dht_server_key : Option CString := none
  deriving DecidableEq, Repr

/-- Append one collaborator call to the trace. -/
def State.emit (s : State) (e : Event) : State :=
  { s with trace := s.trace ++ [e] }

/-- The call `purple_find_buddy(account, name)`: the first entry of that name. -/
def purple_find_buddy (s : State) (name : CString) : Option PurpleBuddy :=
  s.blist.find? fun b => b.name = name

/-- The call `purple_buddy_new(account, name, alias)`: a fresh struct that is not
yet in the list. -/
def purple_buddy_new (s : State) (name : CString) (local_alias : Option CString) :
    PurpleBuddy × State :=
  ({ node := s.next_node, name := name, local_alias := local_alias, proto_data := none },
   { s with next_node := s.next_node + 1 })

/-- The call `purple_blist_add_buddy(buddy, NULL, NULL, NULL)`. -/
def purple_blist_add_buddy (s : State) (buddy : PurpleBuddy) : State :=
  { s with blist := s.blist ++ [buddy] }

/-- The call `purple_blist_remove_buddy(buddy)`. -/
def purple_blist_remove_buddy (s : State) (node : Nat) : State :=
  { s with blist := s.blist.filter fun b => b.node ≠ node }

/-- The call `purple_buddy_set_protocol_data(buddy, buddy_data)` with
`buddy_data->tox_friendlist_number = fnum`. -/
def purple_buddy_set_protocol_data (s : State) (node : Nat) (fnum : Int) : State :=
  { s with blist := s.blist.map fun b =>
      if b.node = node then { b with proto_data := some fnum } else b }

/-- The call `purple_blist_alias_buddy(buddy, alias)`. -/
def purple_blist_alias_buddy (s : State) (node : Nat) (new_alias : CString) : State :=
  { s with blist := s.blist.map fun b =>
      if b.node = node then { b with local_alias := some new_alias } else b }

/-- The call `g_strndup(data, n)` read as a C string: the first `n` bytes of `data`,
up to the first NUL among them. -/
def g_strndup (data : List Char) (n : Nat) : CString :=
  (data.take n).takeWhile fun c => c ≠ Char.ofNat 0

def DEFAULT_REQUEST_MESSAGE : CString := "Please allow me to add you as a friend!".toList

/-- The handler `on_request`. -/
def on_request (s : State) (public_key : List Nat) (data : List Char) (length : Nat) : State :=
  match s.g_tox_gc with
  | none => s
  | some _ =>
    let buddy_key := toxprpl_tox_bin_id_to_string public_key
    match purple_find_buddy s buddy_key with
    | some _ => s
    | none =>
      let dialog_message := "The user ".toList ++ buddy_key ++
        " has sent you a friend request, do you want to add him?".toList
      let request_msg := if length > 0 then some (g_strndup data length) else none
      s.emit (.purple_request_yes_no "New friend request".toList dialog_message request_msg
        buddy_key)

/-- The `switch (ret)` of `toxprpl_tox_addfriend`: the value of `msg` after it. The
`default` branch only logs and leaves `msg` unassigned (`none`). -/
def addfriend_switch (K : ToxHeader) (ret : Int) : Option CString :=
  if ret = K.FAERR_TOOLONG then some "Message too long".toList
  else if ret = K.FAERR_NOMESSAGE then some "Missing request message".toList
  else if ret = K.FAERR_OWNKEY then some "You're trying to add yourself as a friend".toList
  else if ret = K.FAERR_ALREADYSENT then some "Friend request already sent".toList
  else if ret = K.FAERR_UNKNOWN then some "Error adding friend".toList
  else none

/-- The function `toxprpl_tox_addfriend`: the result of the library call and the
state after it. -/
def toxprpl_tox_addfriend (K : ToxHeader) (libc : List Char → Option Nat) (m : Messenger)
    (s : State) (buddy_key : CString) (sendrequest : Bool) : Int × State :=
  let bin_key := toxprpl_tox_hex_string_to_id libc buddy_key
  let len := DEFAULT_REQUEST_MESSAGE.length % 65536 + 1
  let r : Int × State :=
    if sendrequest then
      (m.m_addfriend bin_key DEFAULT_REQUEST_MESSAGE len,
       s.emit (.m_addfriend bin_key DEFAULT_REQUEST_MESSAGE len))
    else
      (m.m_addfriend_norequest bin_key, s.emit (.m_addfriend_norequest bin_key))
  let ret := r.1
  let msg := addfriend_switch K ret
  if ret < 0 then (ret, r.2.emit (.purple_notify_error msg)) else (ret, r.2)

/-- The continuation `toxprpl_do_not_add_to_buddylist`: it only frees the key. -/
def toxprpl_do_not_add_to_buddylist (s : State) (_buddy_key : CString) : State := s

/-- The continuation `toxprpl_add_to_buddylist`. -/
def toxprpl_add_to_buddylist (K : ToxHeader) (libc : List Char → Option Nat) (m : Messenger)
    (s : State) (buddy_key : CString) : State :=
  match s.g_tox_gc with
  | none => s
  | some _ =>
    let r := toxprpl_tox_addfriend K libc m s buddy_key false
    let ret := r.1
    if ret < 0 then r.2
    else
      let got := m.getname ret
      let nb :=
        if got.1 = 0 ∧ got.2.length > 0 then purple_buddy_new r.2 buddy_key (some got.2)
        else purple_buddy_new r.2 buddy_key none
      let buddy := { nb.1 with proto_data := some ret }
      let s2 := purple_blist_add_buddy nb.2 buddy
      let userstatus := m.m_get_userstatus ret
      s2.emit (.purple_prpl_got_user_status buddy_key
        (toxprpl_statuses_id (toxprpl_get_status_index K m ret userstatus)))

/-- The function `toxprpl_query_buddy_info`; `buddy` is the struct that the pointer
argument designates when the call is made. -/
def toxprpl_query_buddy_info (K : ToxHeader) (libc : List Char → Option Nat) (m : Messenger)
    (s : State) (buddy : PurpleBuddy) : State :=
  let r : Int × State :=
    match buddy.proto_data with
    | some fnum => (fnum, s)
    | none =>
      let bin_key := toxprpl_tox_hex_string_to_id libc buddy.name
      let fnum := m.getfriend_id bin_key
      (fnum, purple_buddy_set_protocol_data (s.emit (.getfriend_id bin_key)) buddy.node fnum)
  let fnum := r.1
  let s2 := r.2.emit (.purple_prpl_got_user_status buddy.name
    (toxprpl_statuses_id (toxprpl_get_status_index K m fnum (m.m_get_userstatus fnum))))
  let got := m.getname fnum
  if got.1 = 0 then purple_blist_alias_buddy s2 buddy.node got.2 else s2

/-- The function `toxprpl_add_buddy`; `buddy` is the entry that libpurple has put in
the list before the call. After `purple_blist_remove_buddy` the pointer is
stale: the query that follows reads the struct as it was and its writes
reach no entry of the list. -/
def toxprpl_add_buddy (K : ToxHeader) (libc : List Char → Option Nat) (m : Messenger)
    (s : State) (buddy : PurpleBuddy) : State :=
  let r := toxprpl_tox_addfriend K libc m s buddy.name true
  let ret := r.1
  let s2 := if ret < 0 ∧ ret ≠ K.FAERR_ALREADYSENT then purple_blist_remove_buddy r.2 buddy.node
    else r.2
  toxprpl_query_buddy_info K libc m s2 buddy

/-- The call `g_slist_foreach(buddy_list, toxprpl_query_buddy_info, gc)` over the
entries that `purple_find_buddies(account, NULL)` returned, taken in list
order. -/
def g_slist_foreach_query (K : ToxHeader) (libc : List Char → Option Nat) (m : Messenger) :
    List PurpleBuddy → State → State
  | [], s => s
  | b :: rest, s => g_slist_foreach_query K libc m rest (toxprpl_query_buddy_info K libc m s b)

/-- The tail of the first branch of `tox_connection_check`, from `getself_name` on:
the display nickname is reconciled with the name the network identity
carries. `our_name` is emptied when `getself_name` returns 0, and the call
`purple_account_set_string(account, "nickname", our_name)` is the update of
the field `nickname`. -/
def reconcile_nickname (m : Messenger) (s : State) : State :=
  let name := m.getself_name
  let our_name : CString := if name.1 = 0 then [] else name.2
  match s.nickname with
  | none =>
    if our_name.length > 0 then
      ({ s with nickname := some our_name } : State).emit
        (.purple_connection_set_display_name our_name)
    else s
  | some nick =>
    let s4 := s.emit (.purple_connection_set_display_name nick)
    if nick ≠ our_name then s4.emit (.setname nick (nick.length + 1)) else s4

/-- The timer callback `tox_connection_check`; it always returns `TRUE`, so only the
state after the tick is kept. The account's own id is built from
`self_public_key` by the same `%02x` loop as in
`toxprpl_tox_bin_id_to_string`. -/
def tox_connection_check (K : ToxHeader) (libc : List Char → Option Nat) (m : Messenger)
    (s : State) : State :=
  if s.g_connected = 0 ∧ m.DHT_isconnected ≠ 0 then
    let s1 := (({ s with g_connected := 1 } : State).emit
      (.purple_connection_update_progress "Connected".toList 1 2)).emit
      (.purple_connection_set_state .PURPLE_CONNECTED)
    let id := bin_id_loop 32 m.self_public_key
    let s2 := g_slist_foreach_query K libc m s1.blist s1
    let s3 := s2.emit (.purple_account_set_username id)
    reconcile_nickname m s3
  else if s.g_connected = 1 ∧ ¬ (m.DHT_isconnected ≠ 0) then
    ({ s with g_connected := 0 } : State).emit
      (.purple_connection_update_progress "Connecting".toList 0 2)
  else s

/-- A logged-in session with an empty contact list. -/
def s_fresh : State where
  g_tox_gc := some 1
  g_connected := 0
  blist := []
  nickname := none
  next_node := 0
  trace := []

/-- The hexadecimal identity `abab...ab` (64 characters). -/
def key_ab : CString := toxprpl_tox_bin_id_to_string (List.replicate 32 171)

/-- A logged-in session whose contact list holds `key_ab`, not yet resolved. -/
def s_one_buddy : State where
  g_tox_gc := some 1
  g_connected := 1
  blist := [{ node := 0, name := key_ab, local_alias := none, proto_data := none }]
  nickname := none
  next_node := 1
  trace := []

/-- A library instance that answers every friend-add with the negative code -6,
which is none of the five codes `toxprpl_tox_addfriend` names. -/
def m_reject_6 : Messenger :=
  { m_one_friend with m_addfriend := fun _ _ _ => -6, m_addfriend_norequest := fun _ => -6,
                      DHT_isconnected := 0 }

/-- The calls that report connection progress or a connection state to libpurple. -/
def Event.is_connection_report : Event → Bool
  | .purple_connection_update_progress _ _ _ => true
  | .purple_connection_set_state _ => true
  | _ => false

/-! ## Inbound events, local status, messages -/

/-- The call `purple_prpl_got_user_status(purple_connection_get_account(g_tox_gc),
name, status_id, NULL)` of the handlers that do not test `g_tox_gc` first. -/
def got_user_status_of_gc (s : State) (name : CString) (status_id : Option CString) : State :=
  match s.g_tox_gc with
  | some _ => s.emit (.purple_prpl_got_user_status name status_id)
  | none => s.emit (.purple_prpl_got_user_status_no_account name status_id)

/-- The handler `on_connectionstatus`; `status` is the `uint8_t` argument. -/
def on_connectionstatus (m : Messenger) (s : State) (fnum : Int) (status : Nat) : State :=
  let tox_status := if status = 1 then TOXPRPL_STATUS_ONLINE else TOXPRPL_STATUS_OFFLINE
  let got := m.getclient_id fnum
  if got.1 < 0 then s
  else
    let buddy_key := toxprpl_tox_bin_id_to_string got.2
    got_user_status_of_gc s buddy_key (toxprpl_statuses_id tox_status)

/-- The handler `on_incoming_message`; `string` is the message read as a C string and
`now` is the value of `time(NULL)`. -/
def on_incoming_message (m : Messenger) (s : State) (friendnum : Int) (string : CString)
    (_length : Nat) (now : Nat) : State :=
  match s.g_tox_gc with
  | none => s
  | some _ =>
    let got := m.getclient_id friendnum
    if got.1 < 0 then s
    else
      let buddy_key := toxprpl_tox_bin_id_to_string got.2
      s.emit (.serv_got_im buddy_key string now)

/-- The handler `on_nick_change`; `data` is the name read as a C string. -/
def on_nick_change (m : Messenger) (s : State) (friendnum : Int) (data : CString)
    (_length : Nat) : State :=
  match s.g_tox_gc with
  | none => s
  | some _ =>
    let got := m.getclient_id friendnum
    if got.1 < 0 then s
    else
      let buddy_key := toxprpl_tox_bin_id_to_string got.2
      match purple_find_buddy s buddy_key with
      | none => s
      | some buddy => purple_blist_alias_buddy s buddy.node data

/-- The handler `on_status_change`. -/
def on_status_change (K : ToxHeader) (m : Messenger) (s : State) (friendnum : Int)
    (userstatus : Int) : State :=
  let got := m.getclient_id friendnum
  if got.1 < 0 then s
  else
    let buddy_key := toxprpl_tox_bin_id_to_string got.2
    got_user_status_of_gc s buddy_key
      (toxprpl_statuses_id (toxprpl_get_status_index K m friendnum userstatus))

/-- The function `toxprpl_set_status`; `status_id` and `message` are the id and the
`message` attribute (`none` is `NULL`) of the status. -/
def toxprpl_set_status (K : ToxHeader) (s : State) (status_id : CString)
    (message : Option CString) : State :=
  let tox_status := toxprpl_get_tox_status_from_id K status_id
  if tox_status = K.USERSTATUS_INVALID then s
  else
    let s1 := s.emit (.m_set_userstatus tox_status)
    match message with
    | none => s1
    | some msg =>
      if msg.length > 0 then s1.emit (.m_set_statusmessage msg (msg.length + 1)) else s1

/-- The function `toxprpl_send_im`: its return value and the state after it. -/
def toxprpl_send_im (s : State) (who message : CString) : Int × State :=
  match purple_find_buddy s who with
  | none => (0, s)
  | some buddy =>
    match buddy.proto_data with
    | none => (0, s)
    | some fnum => (1, s.emit (.m_sendmessage fnum message (message.length + 1)))

/-- The call `toxprpl_query_buddy_info(buddy, gc)` for the pointer to the entry at
`node` (the first entry with that address). -/
def toxprpl_query_buddy_info_at (K : ToxHeader) (libc : List Char → Option Nat)
    (m : Messenger) (s : State) (node : Nat) : State :=
  match s.blist.find? fun b => b.node = node with
  | some buddy => toxprpl_query_buddy_info K libc m s buddy
  | none => s

/-- A sequence of calls `toxprpl_query_buddy_info` on the entry at `node`, one for
each element of `ms`, the library answering the i-th call as `ms[i]`. -/
def query_sequence (K : ToxHeader) (libc : List Char → Option Nat) :
    List Messenger → State → Nat → State
  | [], s, _ => s
  | m :: ms, s, node => query_sequence K libc ms (toxprpl_query_buddy_info_at K libc m s node) node

/-- The calls `getfriend_id`. -/
def Event.is_getfriend_id : Event → Bool
  | .getfriend_id _ => true
  | _ => false

/-- The names for which a trace pushes a status with `purple_prpl_got_user_status`,
oldest first. -/
def pushed_names : List Event → List CString
  | [] => []
  | .purple_prpl_got_user_status name _ :: rest => name :: pushed_names rest
  | _ :: rest => pushed_names rest

/-! ## Login and logout -/

def TOXPRPL_ID : CString := "prpl-jin_eld-tox".toList
def DEFAULT_SERVER_KEY : CString :=
  "5CD7EB176C19A2FD840406CD56177BB8E75587BB366F7BB3004B19E3EDC04143".toList
def DEFAULT_SERVER_PORT : Int := 33445
def DEFAULT_SERVER_IP : CString := "192.184.81.118".toList

/-- An element of `purple_connections_get_all()` as far as `call_if_toxprpl` and
`discover_status` read it: the protocol id and the user name of its account
and the names in the contact list of that account. -/
structure PurpleConnection where
  protocol_id : CString
  username : CString
  buddies : List CString
  deriving DecidableEq, Repr

/-- What libpurple answers while `toxprpl_close` runs: the connections that exist,
and the user name, the id of the active status and its `message` attribute
for the account of the session that closes. -/
structure Purple where
  connections : List PurpleConnection
  username : CString
  status_id : CString
  message : Option CString

/-- The function `discover_status(from, to, NULL)` where `to` is the connection of the
session and `frm` an element of the connection list. -/
def discover_status (P : Purple) (s : State) (frm : PurpleConnection) : State :=
  if frm.buddies.contains P.username then
    if toxprpl_statuses_id TOXPRPL_STATUS_ONLINE = some P.status_id ∨
        toxprpl_statuses_id TOXPRPL_STATUS_AWAY = some P.status_id ∨
        toxprpl_statuses_id TOXPRPL_STATUS_BUSY = some P.status_id ∨
        toxprpl_statuses_id TOXPRPL_STATUS_OFFLINE = some P.status_id then
      s.emit (.discover_got_user_status frm.username P.username P.status_id P.message)
    else s
  else s

/-- The call `foreach_toxprpl_gc(report_status_change, gc, NULL)`: `call_if_toxprpl`
runs `report_status_change(gc, to, NULL)`, which is `discover_status(to, gc,
NULL)`, for every connection `to` whose protocol id is `TOXPRPL_ID`. -/
def foreach_toxprpl_gc_report (P : Purple) : List PurpleConnection → State → State
  | [], s => s
  | c :: rest, s =>
      foreach_toxprpl_gc_report P rest
        (if c.protocol_id = TOXPRPL_ID then discover_status P s c else s)

/-- The call `purple_timeout_add` (or `purple_timeout_add_seconds`): the handle it
returns and the state after it. -/
def purple_timeout_add (s : State) (interval_ms : Nat) (callback : TimerCallback)
    (data : Nat) : Nat × State :=
  (s.next_timer,
   { s with timers := s.timers ++ [{ handle := s.next_timer, interval_ms := interval_ms,
                                     callback := callback, data := data }],
            next_timer := s.next_timer + 1 })

/-- The call `purple_timeout_remove(handle)`. -/
def purple_timeout_remove (s : State) (handle : Nat) : State :=
  { s with timers := s.timers.filter fun t => t.handle ≠ handle }

/-- The function `toxprpl_login`; `gc` is the connection of the account that logs in
and `m` answers for the instance that `initMessenger` returns. A stored
`messenger` string is decoded and loaded when it holds at least one byte. -/
def toxprpl_login (libc : List Char → Option Nat) (m : Messenger) (s : State) (gc : Nat) :
    State :=
  let s0 := s.emit .initMessenger
  if m.initMessenger = false then s0
  else
    let s1 := ((((s0.emit (.m_callback .on_incoming_message)).emit
      (.m_callback .on_nick_change)).emit (.m_callback .on_status_change)).emit
      (.m_callback .on_request)).emit (.m_callback .on_connectionstatus)
    let s2 : State := { s1.emit (.purple_connection_set_protocol_data gc) with g_tox_gc := some gc }
    let s3 :=
      match s2.messenger with
      | some msg_data => if msg_data.length > 0 then s2.emit (.Messenger_load msg_data) else s2
      | none => s2
    let s4 := s3.emit (.purple_connection_update_progress "Connecting".toList 0 2)
    let ip := s4.dht_server.getD DEFAULT_SERVER_IP
    let port := s4.dht_server_port.getD DEFAULT_SERVER_PORT
    let key := s4.dht_server_key.getD DEFAULT_SERVER_KEY
    let bin_str := toxprpl_tox_hex_string_to_id libc key
    let s5 := s4.emit (.DHT_bootstrap ip port bin_str)
    let t1 := purple_timeout_add s5 100 .tox_messenger_loop gc
    let s6 : State := { t1.2 with g_tox_messenger_timer := t1.1 }
    let t2 := purple_timeout_add s6 2000 .tox_connection_check gc
    { t2.2 with g_tox_connection_timer := t2.1 }

/-- The function `toxprpl_close`; `m` answers for the instance of the session. The
state of the library is stored in the account string `messenger`. -/
def toxprpl_close (P : Purple) (m : Messenger) (s : State) : State :=
  let s1 := foreach_toxprpl_gc_report P P.connections s
  let s2 : State := { s1 with messenger := some m.Messenger_save }
  let s3 := purple_timeout_remove s2 s2.g_tox_messenger_timer
  let s4 := purple_timeout_remove s3 s3.g_tox_connection_timer
  s4.emit .cleanupMessenger

/-! ## Sample states and libraries -/

/-- The state of the process before any login, for an account with no contacts. -/
def s_boot : State where
  g_tox_gc := none
  g_connected := 0
  blist := []
  nickname := none
  next_node := 0
  trace := []

/-- A libpurple in which the session is the only connection; its account is
available. -/
def purple_alone : Purple where
  connections := [{ protocol_id := TOXPRPL_ID, username := key_ab, buddies := [] }]
  username := key_ab
  status_id := "tox_online".toList
  message := none

/-- A library instance whose friend 0 is connected and has set the status Away. -/
def m_away_friend : Messenger :=
  { m_one_friend with m_get_userstatus := fun _ => 1 }

/-- A logged-in session whose contact `key_ab` has the cached handle -1, the value
`getfriend_id` returns for an identity the library does not know. -/
def s_unresolved : State where
  g_tox_gc := some 1
  g_connected := 1
  blist := [{ node := 0, name := key_ab, local_alias := none, proto_data := some (-1) }]
  nickname := none
  next_node := 1
  trace := []

/-- The second login of an account: the session is logged in from `s_boot`, a tick
finds the DHT connected, the session is closed, and the account logs in
again with the connection 2. -/
def s_relogin : State :=
  toxprpl_login libc_strict m_one_friend
    (toxprpl_close purple_alone m_one_friend
      (tox_connection_check toxcore libc_strict m_one_friend
        (toxprpl_login libc_strict m_one_friend s_boot 1))) 2

/-- A session that received a friend request from `abab...ab` and was closed before
the prompt was answered. -/
def s_closed_pending : State :=
  toxprpl_close purple_alone m_one_friend
    (on_request s_fresh (List.replicate 32 171) "hi".toList 2)

/-- A session that received two friend requests from `abab...ab` and has answered
neither prompt. -/
def s_two_prompts : State :=
  on_request (on_request s_fresh (List.replicate 32 171) "hi".toList 2)
    (List.replicate 32 171) "hi".toList 2

/-- The calls `DHT_bootstrap`. -/
def Event.is_bootstrap : Event → Bool
  | .DHT_bootstrap _ _ _ => true
  | _ => false

/-! ## Theorems: status table -/

/-- C1: `toxprpl_get_status_index` returns Away for `USERSTATUS_AWAY` and Busy for
`USERSTATUS_BUSY` whatever the handle and the liveness are; for every other
raw status it returns Online exactly when the handle is not -1 and
`m_friendstatus` answers `FRIEND_ONLINE`, and Offline otherwise. The two case
labels of the `switch` are distinct constants. -/
theorem toxprpl_get_status_index_precedence (K : ToxHeader) (m : Messenger) (f s : Int)
    (hK : K.USERSTATUS_AWAY ≠ K.USERSTATUS_BUSY) :
    (s = K.USERSTATUS_AWAY → toxprpl_get_status_index K m f s = TOXPRPL_STATUS_AWAY) ∧
    (s = K.USERSTATUS_BUSY → toxprpl_get_status_index K m f s = TOXPRPL_STATUS_BUSY) ∧
    (s ≠ K.USERSTATUS_AWAY → s ≠ K.USERSTATUS_BUSY →
      (toxprpl_get_status_index K m f s = TOXPRPL_STATUS_ONLINE ↔
        (f ≠ -1 ∧ m.m_friendstatus f = K.FRIEND_ONLINE)) ∧
      (¬ (f ≠ -1 ∧ m.m_friendstatus f = K.FRIEND_ONLINE) →
        toxprpl_get_status_index K m f s = TOXPRPL_STATUS_OFFLINE)) := by
  refine ⟨?_, ?_, ?_⟩
  · intro h
    simp [toxprpl_get_status_index, h]
  · intro h
    have hne : ¬ K.USERSTATUS_BUSY = K.USERSTATUS_AWAY := fun e => hK e.symm
    simp [toxprpl_get_status_index, h, hne]
  · intro ha hb
    by_cases hf : f = -1
    · simp [toxprpl_get_status_index, ha, hb, hf, TOXPRPL_STATUS_ONLINE,
        TOXPRPL_STATUS_OFFLINE]
    · by_cases ho : m.m_friendstatus f = K.FRIEND_ONLINE
      · simp [toxprpl_get_status_index, ha, hb, hf, ho]
      · simp [toxprpl_get_status_index, ha, hb, hf, ho, TOXPRPL_STATUS_ONLINE,
          TOXPRPL_STATUS_OFFLINE]

/-- C1, at the library's header values: an Away friend without a handle is Away. -/
theorem toxprpl_get_status_index_precedence_witness :
    toxcore.USERSTATUS_AWAY ≠ toxcore.USERSTATUS_BUSY ∧
    toxprpl_get_status_index toxcore m_one_friend (-1) 1 = TOXPRPL_STATUS_AWAY :=
  ⟨by decide,
   (toxprpl_get_status_index_precedence toxcore m_one_friend (-1) 1 (by decide)).1 rfl⟩

/-- C2, at the failing input: the id of the Away row, `tox_away`, is mapped back to
0 (Online, `USERSTATUS_NONE`) and not to `TOXPRPL_STATUS_AWAY`, because the
row stores `TOXPRPL_STATUS_ONLINE` as its `tox_status`; the other three rows
map back to their own index. -/
theorem toxprpl_get_tox_status_from_id_away (K : ToxHeader) :
    toxprpl_statuses_id TOXPRPL_STATUS_AWAY = some "tox_away".toList ∧
    toxprpl_get_tox_status_from_id K "tox_away".toList = 0 ∧
    toxprpl_get_tox_status_from_id K "tox_away".toList ≠ (TOXPRPL_STATUS_AWAY : Int) ∧
    toxprpl_get_tox_status_from_id K "tox_online".toList = (TOXPRPL_STATUS_ONLINE : Int) ∧
    toxprpl_get_tox_status_from_id K "tox_busy".toList = (TOXPRPL_STATUS_BUSY : Int) ∧
    toxprpl_get_tox_status_from_id K "tox_offline".toList = (TOXPRPL_STATUS_OFFLINE : Int) := by
  refine ⟨by decide, ?_, ?_, ?_, ?_, ?_⟩ <;>
    simp [toxprpl_get_tox_status_from_id, status_from_id_loop, toxprpl_statuses,
      TOXPRPL_MAX_STATUS, TOXPRPL_STATUS_AWAY, TOXPRPL_STATUS_ONLINE, TOXPRPL_STATUS_BUSY,
      TOXPRPL_STATUS_OFFLINE]

/-! ## Theorems: hexadecimal identities -/

set_option maxRecDepth 100000 in
theorem pair_ok_byte : ∀ v < 256, pair_ok v = true := by decide

theorem sscanf_sprintf (libc : List Char → Option Nat) (v : Nat) (hv : v < 256)
    (rest : List Char) :
    sscanf_2hhx libc (sprintf_02x v ++ rest) = some v ∧
    (sprintf_02x v ++ rest).drop 2 = rest ∧ (sprintf_02x v).length = 2 := by
  have h := pair_ok_byte v hv
  unfold pair_ok at h
  split at h
  · rename_i a b heq
    simp only [Bool.and_eq_true, beq_iff_eq] at h
    obtain ⟨⟨ha, hb⟩, hval⟩ := h
    rw [heq]
    simp [sscanf_2hhx, ha, hb, hval]
  · exact absurd h (by simp)

theorem hex_loop_bin_id_loop (libc : List Char → Option Nat) :
    ∀ (n : Nat) (k : List Nat), k.length = n → (∀ b ∈ k, b < 256) →
      ∀ rest, hex_loop libc n (bin_id_loop n k ++ rest) = k.map some ∧
        (bin_id_loop n k).length = 2 * n := by
  intro n
  induction n with
  | zero =>
    intro k hk _ rest
    have : k = [] := List.length_eq_zero.mp hk
    subst this
    simp [hex_loop, bin_id_loop]
  | succ n ih =>
    intro k hk hb rest
    match k, hk, hb with
    | b :: k, hk, hb =>
      have hlt : b < 256 := hb b (List.mem_cons_self _ _)
      have hmask : b &&& 0xff = b := by
        have : b &&& 0xff = b % 256 := Nat.and_pow_two_sub_one_eq_mod b 8
        rw [this]; exact Nat.mod_eq_of_lt hlt
      have hk2 : k.length = n := by simpa using hk
      have hb2 : ∀ c ∈ k, c < 256 := fun c hc => hb c (List.mem_cons_of_mem _ hc)
      obtain ⟨hs, hd, hl⟩ := sscanf_sprintf libc b hlt (bin_id_loop n k ++ rest)
      obtain ⟨ih1, ih2⟩ := ih k hk2 hb2 rest
      simp only [bin_id_loop, hex_loop, List.headD_cons, List.tail_cons, hmask,
        List.append_assoc, hs, hd, ih1, List.map_cons, List.length_append, hl, ih2]
      exact ⟨trivial, by omega⟩

theorem hex_loop_length (libc : List Char → Option Nat) :
    ∀ (n : Nat) (p : List Char), (hex_loop libc n p).length = n := by
  intro n
  induction n with
  | zero => intro p; rfl
  | succ n ih => intro p; simp [hex_loop, ih]

theorem hex_loop_get (libc : List Char → Option Nat) :
    ∀ (n : Nat) (p : List Char) (i : Nat), i < n →
      (hex_loop libc n p).get? i = some (sscanf_2hhx libc (p.drop (2 * i))) := by
  intro n
  induction n with
  | zero => intro p i hi; omega
  | succ n ih =>
    intro p i hi
    cases i with
    | zero => simp [hex_loop]
    | succ i =>
      have h := ih (p.drop 2) i (by omega)
      simp only [hex_loop, List.get?_cons_succ, h, List.drop_drop]
      have : 2 + 2 * i = 2 * (i + 1) := by omega
      rw [this]

/-- C3: for every 32-byte identity `k`, decoding the string that
`toxprpl_tox_bin_id_to_string` produces with `toxprpl_tox_hex_string_to_id`
returns a buffer (not `NULL`) whose first 32 bytes are the bytes of `k`. -/
theorem hex_roundtrip (libc : List Char → Option Nat) (k : List Nat)
    (hlen : k.length = 32) (hbyte : ∀ b ∈ k, b < 256) :
    ∃ bin, toxprpl_tox_hex_string_to_id libc (toxprpl_tox_bin_id_to_string k) = some bin ∧
      bin.take 32 = k.map some := by
  obtain ⟨h1, h2⟩ := hex_loop_bin_id_loop libc 32 k hlen hbyte []
  simp only [List.append_nil] at h1
  refine ⟨k.map some ++ List.replicate 32 none, ?_, ?_⟩
  · simp [toxprpl_tox_hex_string_to_id, toxprpl_tox_bin_id_to_string, CLIENT_ID_SIZE, h2, h1]
  · simp [List.take_append_eq_append_take, hlen]

/-- C3, at the identity whose 32 bytes are all `0xab`. -/
theorem hex_roundtrip_witness :
    ∃ bin, toxprpl_tox_hex_string_to_id libc_strict
        (toxprpl_tox_bin_id_to_string (List.replicate 32 171)) = some bin ∧
      bin.take 32 = (List.replicate 32 171).map some :=
  hex_roundtrip libc_strict (List.replicate 32 171) (by decide)
    (by intro b hb; rw [List.eq_of_mem_replicate hb]; decide)

/-- C4: for every string whose length is not 64, `toxprpl_tox_hex_string_to_id`
returns `NULL`. -/
theorem hex_string_to_id_wrong_length (libc : List Char → Option Nat) (s : CString)
    (h : s.length ≠ 64) : toxprpl_tox_hex_string_to_id libc s = none := by
  simp [toxprpl_tox_hex_string_to_id, h]

/-- C4, at the three-character string `abc`. -/
theorem hex_string_to_id_wrong_length_witness :
    toxprpl_tox_hex_string_to_id libc_strict "abc".toList = none :=
  hex_string_to_id_wrong_length libc_strict "abc".toList (by decide)

/-- C5 as stated is false: the string of 64 letters `z` has no hexadecimal digit at
all, and `toxprpl_tox_hex_string_to_id` still returns a buffer, not `NULL`. -/
theorem hex_string_to_id_non_hex_not_null :
    (List.replicate 64 'z').length = 64 ∧
    (∃ c ∈ List.replicate 64 'z', isxdigit c = false) ∧
    toxprpl_tox_hex_string_to_id libc_strict (List.replicate 64 'z') ≠ none := by
  refine ⟨by decide, ⟨'z', by decide, by decide⟩, ?_⟩
  simp [toxprpl_tox_hex_string_to_id]

/-- C5, amended: `toxprpl_tox_hex_string_to_id` checks the length only. It returns
a buffer of 64 bytes for every string of 64 characters, hexadecimal or not,
and `NULL` for every other string; byte `i` of the buffer is what `sscanf`
stored for the characters from position `2 * i`, and stays unwritten where
the conversion failed. -/
theorem hex_string_to_id_not_null_iff (libc : List Char → Option Nat) (s : CString) :
    (toxprpl_tox_hex_string_to_id libc s ≠ none ↔ s.length = 64) ∧
    (∀ bin, toxprpl_tox_hex_string_to_id libc s = some bin →
      bin.length = 64 ∧
      ∀ i, i < 32 → bin.get? i = some (sscanf_2hhx libc (s.drop (2 * i)))) := by
  constructor
  · by_cases h : s.length = 64 <;> simp [toxprpl_tox_hex_string_to_id, h]
  · intro bin hbin
    by_cases h : s.length = 64
    · simp only [toxprpl_tox_hex_string_to_id, h, ne_eq, not_true_eq_false, if_false,
        Option.some.injEq] at hbin
      subst hbin
      constructor
      · simp [hex_loop_length]
      · intro i hi
        have hl : i < (hex_loop libc (64 / 2) s).length := by
          rw [hex_loop_length]; omega
        rw [List.get?_eq_getElem?, List.getElem?_append_left hl, ← List.get?_eq_getElem?]
        exact hex_loop_get libc (64 / 2) s i (by omega)
    · simp [toxprpl_tox_hex_string_to_id, h] at hbin

/-! ## Theorems: friend requests -/

/-- C6: with a session established, `on_request` leaves the state as it is (no
prompt) when the contact list has an entry whose name is the hexadecimal
identity, and otherwise issues exactly one `purple_request_yes_no`, whose
`user_data` is the hexadecimal identity and whose request text is absent when
`length` is 0 and is the first `length` bytes of `data`, read as a C string,
when `length > 0`. -/
theorem on_request_prompt (s : State) (gc : Nat) (public_key : List Nat) (data : List Char)
    (length : Nat) (hgc : s.g_tox_gc = some gc) :
    ((∃ b ∈ s.blist, b.name = toxprpl_tox_bin_id_to_string public_key) →
      on_request s public_key data length = s) ∧
    ((¬ ∃ b ∈ s.blist, b.name = toxprpl_tox_bin_id_to_string public_key) →
      on_request s public_key data length =
        s.emit (.purple_request_yes_no "New friend request".toList
          ("The user ".toList ++ toxprpl_tox_bin_id_to_string public_key ++
            " has sent you a friend request, do you want to add him?".toList)
          (if length > 0 then some (g_strndup data length) else none)
          (toxprpl_tox_bin_id_to_string public_key))) ∧
    ((∀ c ∈ data.take length, c ≠ Char.ofNat 0) → g_strndup data length = data.take length) := by
  refine ⟨?_, ?_, ?_⟩
  · rintro ⟨b, hb, hname⟩
    have hfind : (purple_find_buddy s (toxprpl_tox_bin_id_to_string public_key)).isSome := by
      simp only [purple_find_buddy, List.find?_isSome]
      exact ⟨b, hb, by simp [hname]⟩
    obtain ⟨b2, hb2⟩ := Option.isSome_iff_exists.mp hfind
    simp [on_request, hgc, hb2]
  · intro hno
    have hfind : purple_find_buddy s (toxprpl_tox_bin_id_to_string public_key) = none := by
      simp only [purple_find_buddy, List.find?_eq_none]
      intro b hb hname
      exact hno ⟨b, hb, by simpa using hname⟩
    simp [on_request, hgc, hfind]
  · intro hnul
    simp only [g_strndup]
    rw [List.takeWhile_eq_self_iff]
    intro c hc
    simpa using hnul c hc

/-- C6, at a fresh session: a request from the identity `abab...ab` with the text
`hi` raises one prompt that carries the identity and that text. -/
theorem on_request_prompt_witness :
    on_request s_fresh (List.replicate 32 171) "hi".toList 2 =
      s_fresh.emit (.purple_request_yes_no "New friend request".toList
        ("The user ".toList ++ key_ab ++
          " has sent you a friend request, do you want to add him?".toList)
        (some "hi".toList) key_ab) := by
  have h := (on_request_prompt s_fresh 1 (List.replicate 32 171) "hi".toList 2 rfl).2.1
    (by simp [s_fresh])
  have h2 := (on_request_prompt s_fresh 1 (List.replicate 32 171) "hi".toList 2 rfl).2.2
    (by decide)
  rw [h, h2]
  rfl

theorem addfriend_fst (K : ToxHeader) (libc : List Char → Option Nat) (m : Messenger)
    (s : State) (key : CString) :
    (toxprpl_tox_addfriend K libc m s key true).1 =
      m.m_addfriend (toxprpl_tox_hex_string_to_id libc key) DEFAULT_REQUEST_MESSAGE 40 := by
  simp only [toxprpl_tox_addfriend, if_true]
  split <;> rfl

theorem addfriend_norequest_fst (K : ToxHeader) (libc : List Char → Option Nat) (m : Messenger)
    (s : State) (key : CString) :
    (toxprpl_tox_addfriend K libc m s key false).1 =
      m.m_addfriend_norequest (toxprpl_tox_hex_string_to_id libc key) := by
  simp only [toxprpl_tox_addfriend, Bool.false_eq_true, if_false]
  split <;> rfl

theorem addfriend_norequest_snd_ok (K : ToxHeader) (libc : List Char → Option Nat)
    (m : Messenger) (s : State) (key : CString)
    (h : 0 ≤ m.m_addfriend_norequest (toxprpl_tox_hex_string_to_id libc key)) :
    (toxprpl_tox_addfriend K libc m s key false).2 =
      s.emit (.m_addfriend_norequest (toxprpl_tox_hex_string_to_id libc key)) := by
  have hn : ¬ m.m_addfriend_norequest (toxprpl_tox_hex_string_to_id libc key) < 0 := by omega
  simp [toxprpl_tox_addfriend, hn]

theorem addfriend_norequest_snd_err (K : ToxHeader) (libc : List Char → Option Nat)
    (m : Messenger) (s : State) (key : CString)
    (h : m.m_addfriend_norequest (toxprpl_tox_hex_string_to_id libc key) < 0) :
    (toxprpl_tox_addfriend K libc m s key false).2 =
      (s.emit (.m_addfriend_norequest (toxprpl_tox_hex_string_to_id libc key))).emit
        (.purple_notify_error (addfriend_switch K
          (m.m_addfriend_norequest (toxprpl_tox_hex_string_to_id libc key)))) := by
  simp [toxprpl_tox_addfriend, h]

theorem addfriend_blist (K : ToxHeader) (libc : List Char → Option Nat) (m : Messenger)
    (s : State) (key : CString) (req : Bool) :
    (toxprpl_tox_addfriend K libc m s key req).2.blist = s.blist := by
  cases req <;> simp only [toxprpl_tox_addfriend, Bool.false_eq_true, if_true, if_false] <;>
    split <;> simp [State.emit]

/-- C7: with a session established, `toxprpl_add_to_buddylist` for the identity `A`
calls `m_addfriend_norequest` once and `m_addfriend` never. When the call
returns `h ≥ 0`, one entry named `A` with `h` cached as its session handle is
appended to the contact list, and the status pushed for `A` is the table id of
`toxprpl_get_status_index` at `h` and the raw status of `h`. When it returns a
negative value the contact list is unchanged. -/
theorem toxprpl_add_to_buddylist_accept (K : ToxHeader) (libc : List Char → Option Nat)
    (m : Messenger) (s : State) (gc : Nat) (A : CString) (hgc : s.g_tox_gc = some gc) :
    (0 ≤ m.m_addfriend_norequest (toxprpl_tox_hex_string_to_id libc A) →
      (toxprpl_add_to_buddylist K libc m s A).trace = s.trace ++
        [.m_addfriend_norequest (toxprpl_tox_hex_string_to_id libc A),
         .purple_prpl_got_user_status A (toxprpl_statuses_id (toxprpl_get_status_index K m
            (m.m_addfriend_norequest (toxprpl_tox_hex_string_to_id libc A))
            (m.m_get_userstatus
              (m.m_addfriend_norequest (toxprpl_tox_hex_string_to_id libc A)))))] ∧
      ∃ b, (toxprpl_add_to_buddylist K libc m s A).blist = s.blist ++ [b] ∧ b.name = A ∧
        b.proto_data = some (m.m_addfriend_norequest (toxprpl_tox_hex_string_to_id libc A)) ∧
        b.node = s.next_node) ∧
    (m.m_addfriend_norequest (toxprpl_tox_hex_string_to_id libc A) < 0 →
      (toxprpl_add_to_buddylist K libc m s A).trace = s.trace ++
        [.m_addfriend_norequest (toxprpl_tox_hex_string_to_id libc A),
         .purple_notify_error (addfriend_switch K
            (m.m_addfriend_norequest (toxprpl_tox_hex_string_to_id libc A)))] ∧
      (toxprpl_add_to_buddylist K libc m s A).blist = s.blist) := by
  have hfst := addfriend_norequest_fst K libc m s A
  constructor
  · intro hpos
    have hnn : ¬ m.m_addfriend_norequest (toxprpl_tox_hex_string_to_id libc A) < 0 := by omega
    have hsnd := addfriend_norequest_snd_ok K libc m s A hpos
    have hrun : toxprpl_add_to_buddylist K libc m s A =
        (purple_blist_add_buddy
          (purple_buddy_new (s.emit (.m_addfriend_norequest (toxprpl_tox_hex_string_to_id libc A)))
            A (if (m.getname (m.m_addfriend_norequest
                (toxprpl_tox_hex_string_to_id libc A))).1 = 0 ∧
                (m.getname (m.m_addfriend_norequest
                  (toxprpl_tox_hex_string_to_id libc A))).2.length > 0
              then some (m.getname (m.m_addfriend_norequest
                (toxprpl_tox_hex_string_to_id libc A))).2 else none)).2
          { (purple_buddy_new
              (s.emit (.m_addfriend_norequest (toxprpl_tox_hex_string_to_id libc A)))
              A (if (m.getname (m.m_addfriend_norequest
                  (toxprpl_tox_hex_string_to_id libc A))).1 = 0 ∧
                  (m.getname (m.m_addfriend_norequest
                    (toxprpl_tox_hex_string_to_id libc A))).2.length > 0
                then some (m.getname (m.m_addfriend_norequest
                  (toxprpl_tox_hex_string_to_id libc A))).2 else none)).1 with
            proto_data := some (m.m_addfriend_norequest
              (toxprpl_tox_hex_string_to_id libc A)) }).emit
          (.purple_prpl_got_user_status A (toxprpl_statuses_id (toxprpl_get_status_index K m
            (m.m_addfriend_norequest (toxprpl_tox_hex_string_to_id libc A))
            (m.m_get_userstatus
              (m.m_addfriend_norequest (toxprpl_tox_hex_string_to_id libc A)))))) := by
      simp only [toxprpl_add_to_buddylist, hgc]
      rw [hfst, hsnd, if_neg hnn]
      split <;> rfl
    rw [hrun]
    refine ⟨?_, ?_⟩
    · simp [State.emit, purple_blist_add_buddy, purple_buddy_new]
    · simp [State.emit, purple_blist_add_buddy, purple_buddy_new]
  · intro hneg
    have hsnd := addfriend_norequest_snd_err K libc m s A hneg
    have hrun : toxprpl_add_to_buddylist K libc m s A =
        (s.emit (.m_addfriend_norequest (toxprpl_tox_hex_string_to_id libc A))).emit
          (.purple_notify_error (addfriend_switch K
            (m.m_addfriend_norequest (toxprpl_tox_hex_string_to_id libc A)))) := by
      simp only [toxprpl_add_to_buddylist, hgc]
      rw [hfst, hsnd, if_pos hneg]
    rw [hrun]
    exact ⟨by simp [State.emit], by simp [State.emit]⟩

/-- C7, at a fresh session and a library that answers the add with handle 0: one
entry named `abab...ab` with handle 0 is appended. -/
theorem toxprpl_add_to_buddylist_accept_witness :
    ∃ b, (toxprpl_add_to_buddylist toxcore libc_strict m_one_friend s_fresh key_ab).blist =
        s_fresh.blist ++ [b] ∧ b.name = key_ab ∧ b.proto_data = some 0 ∧ b.node = 0 :=
  ((toxprpl_add_to_buddylist_accept toxcore libc_strict m_one_friend s_fresh 1 key_ab rfl).1
    (by decide)).2

theorem set_protocol_data_nodes (s : State) (node : Nat) (fnum : Int) :
    (purple_buddy_set_protocol_data s node fnum).blist.map (fun b => b.node) =
      s.blist.map (fun b => b.node) := by
  simp only [purple_buddy_set_protocol_data, List.map_map]
  apply List.map_congr_left
  intro b _
  simp only [Function.comp]
  split <;> rfl

theorem alias_buddy_nodes (s : State) (node : Nat) (a : CString) :
    (purple_blist_alias_buddy s node a).blist.map (fun b => b.node) =
      s.blist.map (fun b => b.node) := by
  simp only [purple_blist_alias_buddy, List.map_map]
  apply List.map_congr_left
  intro b _
  simp only [Function.comp]
  split <;> rfl

theorem query_buddy_info_nodes (K : ToxHeader) (libc : List Char → Option Nat) (m : Messenger)
    (s : State) (buddy : PurpleBuddy) :
    (toxprpl_query_buddy_info K libc m s buddy).blist.map (fun b => b.node) =
      s.blist.map (fun b => b.node) := by
  unfold toxprpl_query_buddy_info
  cases buddy.proto_data with
  | some fnum =>
    simp only []
    split
    · rw [alias_buddy_nodes]; rfl
    · rfl
  | none =>
    simp only []
    split
    · rw [alias_buddy_nodes]
      exact set_protocol_data_nodes _ _ _
    · exact set_protocol_data_nodes _ _ _

/-- C8: in `toxprpl_add_buddy`, with `r` the result of the add-friend call, the entry
is gone from the contact list afterwards if and only if `r` is negative and
is not `FAERR_ALREADYSENT`; for `FAERR_ALREADYSENT` and for every non-negative
`r` the list holds the same entries as before. -/
theorem toxprpl_add_buddy_rollback (K : ToxHeader) (libc : List Char → Option Nat)
    (m : Messenger) (s : State) (buddy : PurpleBuddy) (hin : buddy ∈ s.blist) :
    (toxprpl_tox_addfriend K libc m s buddy.name true).1 =
      m.m_addfriend (toxprpl_tox_hex_string_to_id libc buddy.name) DEFAULT_REQUEST_MESSAGE 40 ∧
    (buddy.node ∉ (toxprpl_add_buddy K libc m s buddy).blist.map (fun b => b.node) ↔
      (m.m_addfriend (toxprpl_tox_hex_string_to_id libc buddy.name) DEFAULT_REQUEST_MESSAGE 40 < 0 ∧
       m.m_addfriend (toxprpl_tox_hex_string_to_id libc buddy.name) DEFAULT_REQUEST_MESSAGE 40 ≠
         K.FAERR_ALREADYSENT)) ∧
    (¬ (m.m_addfriend (toxprpl_tox_hex_string_to_id libc buddy.name) DEFAULT_REQUEST_MESSAGE 40 < 0 ∧
       m.m_addfriend (toxprpl_tox_hex_string_to_id libc buddy.name) DEFAULT_REQUEST_MESSAGE 40 ≠
         K.FAERR_ALREADYSENT) →
      (toxprpl_add_buddy K libc m s buddy).blist.map (fun b => b.node) =
        s.blist.map (fun b => b.node)) := by
  have hfst := addfriend_fst K libc m s buddy.name
  have hbl := addfriend_blist K libc m s buddy.name true
  have hmem : buddy.node ∈ s.blist.map (fun b => b.node) := List.mem_map_of_mem _ hin
  refine ⟨hfst, ?_, ?_⟩
  · unfold toxprpl_add_buddy
    simp only [query_buddy_info_nodes]
    rw [hfst]
    split
    · rename_i h
      simp only [purple_blist_remove_buddy, hbl]
      constructor
      · intro _; exact h
      · intro _ hcontra
        simp only [List.mem_map, List.mem_filter] at hcontra
        obtain ⟨b, ⟨_, hb⟩, hnode⟩ := hcontra
        simp [hnode] at hb
    · rename_i h
      rw [hbl]
      constructor
      · intro hnot; exact absurd hmem hnot
      · intro hc; exact absurd hc h
  · intro h
    unfold toxprpl_add_buddy
    simp only [query_buddy_info_nodes]
    rw [hfst, if_neg h, hbl]

/-- C8, at a list that holds `abab...ab` and a library that answers the add with the
code -6: the entry is gone afterwards. -/
theorem toxprpl_add_buddy_rollback_witness :
    (0 : Nat) ∉ (toxprpl_add_buddy toxcore libc_strict m_reject_6 s_one_buddy
      { node := 0, name := key_ab, local_alias := none, proto_data := none }).blist.map
        (fun b => b.node) :=
  (toxprpl_add_buddy_rollback toxcore libc_strict m_reject_6 s_one_buddy
    { node := 0, name := key_ab, local_alias := none, proto_data := none }
    (List.mem_singleton.mpr rfl)).2.1.mpr (by decide)

/-- C9, at the failing input: when the library answers `m_addfriend` with -6, a
negative code that is none of the five named ones, `toxprpl_tox_addfriend`
returns -6 and raises one error notification, but the `switch` has assigned
no text to `msg`: the notification carries an uninitialised pointer. -/
theorem toxprpl_tox_addfriend_unclassified :
    toxprpl_tox_addfriend toxcore libc_strict m_reject_6 s_fresh key_ab true =
      (-6, (s_fresh.emit (.m_addfriend (toxprpl_tox_hex_string_to_id libc_strict key_ab)
          DEFAULT_REQUEST_MESSAGE 40)).emit (.purple_notify_error none)) := by
  rfl

/-- The general form of the unclassified case: a result that is none of the five
named codes leaves `msg` unassigned. -/
theorem addfriend_switch_default (K : ToxHeader) (r : Int) (h1 : r ≠ K.FAERR_TOOLONG)
    (h2 : r ≠ K.FAERR_NOMESSAGE) (h3 : r ≠ K.FAERR_OWNKEY) (h4 : r ≠ K.FAERR_ALREADYSENT)
    (h5 : r ≠ K.FAERR_UNKNOWN) : addfriend_switch K r = none := by
  simp [addfriend_switch, h1, h2, h3, h4, h5]

/-! ## Theorems: connection check -/

theorem query_buddy_info_frame (K : ToxHeader) (libc : List Char → Option Nat) (m : Messenger)
    (s : State) (buddy : PurpleBuddy) :
    (toxprpl_query_buddy_info K libc m s buddy).g_connected = s.g_connected ∧
    ∃ evs, (toxprpl_query_buddy_info K libc m s buddy).trace = s.trace ++ evs ∧
      ∀ e ∈ evs, e.is_connection_report = false := by
  unfold toxprpl_query_buddy_info
  cases buddy.proto_data with
  | some fnum =>
    simp only []
    split
    · exact ⟨rfl, _, rfl, by simp [Event.is_connection_report]⟩
    · exact ⟨rfl, _, rfl, by simp [Event.is_connection_report]⟩
  | none =>
    simp only []
    split
    · refine ⟨rfl, [.getfriend_id (toxprpl_tox_hex_string_to_id libc buddy.name),
        .purple_prpl_got_user_status buddy.name (toxprpl_statuses_id
          (toxprpl_get_status_index K m
            (m.getfriend_id (toxprpl_tox_hex_string_to_id libc buddy.name))
            (m.m_get_userstatus
              (m.getfriend_id (toxprpl_tox_hex_string_to_id libc buddy.name)))))], ?_,
        by simp [Event.is_connection_report]⟩
      simp [purple_blist_alias_buddy, purple_buddy_set_protocol_data, State.emit]
    · refine ⟨rfl, [.getfriend_id (toxprpl_tox_hex_string_to_id libc buddy.name),
        .purple_prpl_got_user_status buddy.name (toxprpl_statuses_id
          (toxprpl_get_status_index K m
            (m.getfriend_id (toxprpl_tox_hex_string_to_id libc buddy.name))
            (m.m_get_userstatus
              (m.getfriend_id (toxprpl_tox_hex_string_to_id libc buddy.name)))))], ?_,
        by simp [Event.is_connection_report]⟩
      simp [purple_buddy_set_protocol_data, State.emit]

theorem foreach_query_frame (K : ToxHeader) (libc : List Char → Option Nat) (m : Messenger) :
    ∀ (l : List PurpleBuddy) (s : State),
      (g_slist_foreach_query K libc m l s).g_connected = s.g_connected ∧
      ∃ evs, (g_slist_foreach_query K libc m l s).trace = s.trace ++ evs ∧
        ∀ e ∈ evs, e.is_connection_report = false := by
  intro l
  induction l with
  | nil => intro s; exact ⟨rfl, [], by simp [g_slist_foreach_query], by simp⟩
  | cons b rest ih =>
    intro s
    obtain ⟨hg, evs, ht, hev⟩ := query_buddy_info_frame K libc m s b
    obtain ⟨hg2, evs2, ht2, hev2⟩ := ih (toxprpl_query_buddy_info K libc m s b)
    refine ⟨?_, evs ++ evs2, ?_, ?_⟩
    · simp only [g_slist_foreach_query]; rw [hg2, hg]
    · simp only [g_slist_foreach_query]; rw [ht2, ht, List.append_assoc]
    · intro e he
      rcases List.mem_append.mp he with h | h
      · exact hev e h
      · exact hev2 e h

theorem reconcile_nickname_frame (m : Messenger) (s : State) :
    (reconcile_nickname m s).g_connected = s.g_connected ∧
    ∃ evs, (reconcile_nickname m s).trace = s.trace ++ evs ∧
      ∀ e ∈ evs, e.is_connection_report = false := by
  unfold reconcile_nickname
  simp only []
  generalize (if m.getself_name.1 = 0 then ([] : CString) else m.getself_name.2) = our_name
  cases s.nickname with
  | none =>
    simp only []
    by_cases h : our_name.length > 0
    · rw [if_pos h]
      exact ⟨rfl, [.purple_connection_set_display_name our_name], rfl,
        by simp [Event.is_connection_report]⟩
    · rw [if_neg h]
      exact ⟨rfl, [], by simp, by simp⟩
  | some nick =>
    simp only []
    by_cases h : nick ≠ our_name
    · rw [if_pos h]
      exact ⟨rfl, [.purple_connection_set_display_name nick, .setname nick (nick.length + 1)],
        by simp [State.emit], by simp [Event.is_connection_report]⟩
    · rw [if_neg h]
      exact ⟨rfl, [.purple_connection_set_display_name nick], rfl,
        by simp [Event.is_connection_report]⟩

/-- C10: for a stored flag `c` that is 0 or 1 and a probe result `p`, the flag after
`tox_connection_check` is 1 if `p` is true and 0 if it is false. The tick
changes the state in two cases only: from `c = 0` with `p` true it reports
progress step 1 of 2 and the state `PURPLE_CONNECTED`, and from `c = 1` with
`p` false it does nothing but reset the flag and report progress step 0 of 2,
`Connecting`. No other progress or connection state is reported, so no tick
reports a disconnected state. -/
theorem tox_connection_check_transitions (K : ToxHeader) (libc : List Char → Option Nat)
    (m : Messenger) (s : State) (hc : s.g_connected = 0 ∨ s.g_connected = 1) :
    ((tox_connection_check K libc m s).g_connected =
      if m.DHT_isconnected ≠ 0 then 1 else 0) ∧
    (s.g_connected = 0 → m.DHT_isconnected ≠ 0 →
      ∃ rest, (tox_connection_check K libc m s).trace = s.trace ++
          [.purple_connection_update_progress "Connected".toList 1 2,
           .purple_connection_set_state .PURPLE_CONNECTED] ++ rest ∧
        ∀ e ∈ rest, e.is_connection_report = false) ∧
    (s.g_connected = 1 → m.DHT_isconnected = 0 →
      tox_connection_check K libc m s =
        ({ s with g_connected := 0 } : State).emit
          (.purple_connection_update_progress "Connecting".toList 0 2)) ∧
    (s.g_connected = 0 → m.DHT_isconnected = 0 → tox_connection_check K libc m s = s) ∧
    (s.g_connected = 1 → m.DHT_isconnected ≠ 0 → tox_connection_check K libc m s = s) := by
  have hedge : s.g_connected = 0 → m.DHT_isconnected ≠ 0 →
      (tox_connection_check K libc m s).g_connected = 1 ∧
      ∃ rest, (tox_connection_check K libc m s).trace = s.trace ++
          [.purple_connection_update_progress "Connected".toList 1 2,
           .purple_connection_set_state .PURPLE_CONNECTED] ++ rest ∧
        ∀ e ∈ rest, e.is_connection_report = false := by
    intro h0 hp
    obtain ⟨hg, evs, ht, hev⟩ := foreach_query_frame K libc m s.blist
      ((({ s with g_connected := 1 } : State).emit
        (.purple_connection_update_progress "Connected".toList 1 2)).emit
        (.purple_connection_set_state .PURPLE_CONNECTED))
    have hcond : s.g_connected = 0 ∧ m.DHT_isconnected ≠ 0 := ⟨h0, hp⟩
    obtain ⟨hg3, evs3, ht3, hev3⟩ := reconcile_nickname_frame m
      ((g_slist_foreach_query K libc m s.blist
        ((({ s with g_connected := 1 } : State).emit
          (.purple_connection_update_progress "Connected".toList 1 2)).emit
          (.purple_connection_set_state .PURPLE_CONNECTED))).emit
        (.purple_account_set_username (bin_id_loop 32 m.self_public_key)))
    have hrun : tox_connection_check K libc m s = reconcile_nickname m
        ((g_slist_foreach_query K libc m s.blist
          ((({ s with g_connected := 1 } : State).emit
            (.purple_connection_update_progress "Connected".toList 1 2)).emit
            (.purple_connection_set_state .PURPLE_CONNECTED))).emit
          (.purple_account_set_username (bin_id_loop 32 m.self_public_key))) := by
      simp only [tox_connection_check, if_pos hcond]
      rfl
    rw [hrun]
    refine ⟨?_, evs ++ [.purple_account_set_username (bin_id_loop 32 m.self_public_key)] ++ evs3,
      ?_, ?_⟩
    · rw [hg3]; simp only [State.emit] at hg ⊢; exact hg
    · rw [ht3]; simp only [State.emit] at ht ⊢; rw [ht]; simp
    · intro e he
      rcases List.mem_append.mp he with h | h
      · rcases List.mem_append.mp h with h | h
        · exact hev e h
        · simp only [List.mem_singleton] at h
          subst h; rfl
      · exact hev3 e h
  have hdrop : s.g_connected = 1 → m.DHT_isconnected = 0 →
      tox_connection_check K libc m s =
        ({ s with g_connected := 0 } : State).emit
          (.purple_connection_update_progress "Connecting".toList 0 2) := by
    intro h1 hp
    simp [tox_connection_check, h1, hp]
  have hidle0 : s.g_connected = 0 → m.DHT_isconnected = 0 →
      tox_connection_check K libc m s = s := by
    intro h0 hp
    simp [tox_connection_check, h0, hp]
  have hidle1 : s.g_connected = 1 → m.DHT_isconnected ≠ 0 →
      tox_connection_check K libc m s = s := by
    intro h1 hp
    simp [tox_connection_check, h1, hp]
  refine ⟨?_, fun h0 hp => (hedge h0 hp).2, hdrop, hidle0, hidle1⟩
  by_cases hp : m.DHT_isconnected = 0
  · rcases hc with h0 | h1
    · rw [hidle0 h0 hp]; simp [h0, hp]
    · rw [hdrop h1 hp]; simp [State.emit, hp]
  · rcases hc with h0 | h1
    · rw [(hedge h0 hp).1]; simp [hp]
    · rw [hidle1 h1 hp]; simp [h1, hp]

/-- C10, at a connected session whose probe reports false: the flag goes back to 0. -/
theorem tox_connection_check_transitions_witness :
    (tox_connection_check toxcore libc_strict m_reject_6 s_one_buddy).g_connected = 0 :=
  (tox_connection_check_transitions toxcore libc_strict m_reject_6 s_one_buddy (Or.inr rfl)).1

/-! ## Theorems: login and logout -/

theorem discover_status_frame (P : Purple) (s : State) (c : PurpleConnection) :
    (discover_status P s c).g_connected = s.g_connected ∧
    (discover_status P s c).g_tox_gc = s.g_tox_gc ∧
    (discover_status P s c).blist = s.blist := by
  unfold discover_status
  split
  · split
    · exact ⟨rfl, rfl, rfl⟩
    · exact ⟨rfl, rfl, rfl⟩
  · exact ⟨rfl, rfl, rfl⟩

theorem foreach_report_frame (P : Purple) :
    ∀ (l : List PurpleConnection) (s : State),
      (foreach_toxprpl_gc_report P l s).g_connected = s.g_connected ∧
      (foreach_toxprpl_gc_report P l s).g_tox_gc = s.g_tox_gc ∧
      (foreach_toxprpl_gc_report P l s).blist = s.blist := by
  intro l
  induction l with
  | nil => intro s; exact ⟨rfl, rfl, rfl⟩
  | cons c rest ih =>
    intro s
    simp only [foreach_toxprpl_gc_report]
    obtain ⟨h1, h2, h3⟩ := ih (if c.protocol_id = TOXPRPL_ID then discover_status P s c else s)
    rw [h1, h2, h3]
    by_cases hc : c.protocol_id = TOXPRPL_ID
    · rw [if_pos hc]
      exact discover_status_frame P s c
    · rw [if_neg hc]
      exact ⟨rfl, rfl, rfl⟩

/-- The function `toxprpl_close` writes neither `g_connected` nor `g_tox_gc`. -/
theorem toxprpl_close_keeps_globals (P : Purple) (m : Messenger) (s : State) :
    (toxprpl_close P m s).g_connected = s.g_connected ∧
    (toxprpl_close P m s).g_tox_gc = s.g_tox_gc ∧
    (toxprpl_close P m s).blist = s.blist := by
  obtain ⟨h1, h2, h3⟩ := foreach_report_frame P P.connections s
  simp only [toxprpl_close, purple_timeout_remove, State.emit]
  exact ⟨h1, h2, h3⟩

/-- The function `toxprpl_login` does not write `g_connected`. -/
theorem toxprpl_login_keeps_connected (libc : List Char → Option Nat) (m : Messenger)
    (s : State) (gc : Nat) : (toxprpl_login libc m s gc).g_connected = s.g_connected := by
  unfold toxprpl_login
  by_cases hm : m.initMessenger = false
  · simp [hm, State.emit]
  · simp only [hm, if_false]
    cases hmsg : s.messenger with
    | none => simp [State.emit, purple_timeout_add, hmsg]
    | some d =>
      by_cases hd : d.length > 0 <;> simp [State.emit, purple_timeout_add, hmsg, hd]

theorem tox_connection_check_idle (K : ToxHeader) (libc : List Char → Option Nat)
    (m : Messenger) (s : State) :
    (s.g_connected = 1 → m.DHT_isconnected ≠ 0 → tox_connection_check K libc m s = s) ∧
    (s.g_connected = 0 → m.DHT_isconnected = 0 → tox_connection_check K libc m s = s) := by
  constructor
  · intro h1 hp
    simp [tox_connection_check, h1, hp]
  · intro h0 hp
    simp [tox_connection_check, h0, hp]

/-- C11, at the failing input: a session is logged in, a tick finds the DHT
connected (flag 1), the session is closed and the account logs in again.
After this second `toxprpl_login` the flag `g_connected` is still 1, not 0,
and a tick whose probe reports true changes nothing: it performs no
transition to Connected. -/
theorem toxprpl_login_after_connected_close :
    (tox_connection_check toxcore libc_strict m_one_friend
      (toxprpl_login libc_strict m_one_friend s_boot 1)).g_connected = 1 ∧
    s_relogin.g_tox_gc = some 2 ∧
    s_relogin.g_connected = 1 ∧
    m_one_friend.DHT_isconnected ≠ 0 ∧
    tox_connection_check toxcore libc_strict m_one_friend s_relogin = s_relogin := by
  have hflag : s_relogin.g_connected = 1 := by
    unfold s_relogin
    rw [toxprpl_login_keeps_connected, (toxprpl_close_keeps_globals _ _ _).1]
    rfl
  refine ⟨rfl, rfl, hflag, by decide, ?_⟩
  exact (tox_connection_check_idle toxcore libc_strict m_one_friend s_relogin).1 hflag
    (by decide)

/-- C13, at the failing input: a friend request is pending when the session is
closed. `toxprpl_close` leaves `g_tox_gc` set, so the answer "yes" that
arrives afterwards passes the `NULL` guard of `toxprpl_add_to_buddylist`: it
calls `m_addfriend_norequest` on the instance that was cleaned up and adds a
contact to the list. -/
theorem toxprpl_add_to_buddylist_after_close :
    s_closed_pending.g_tox_gc = some 1 ∧
    s_closed_pending.blist = [] ∧
    (toxprpl_add_to_buddylist toxcore libc_strict m_one_friend s_closed_pending key_ab).trace =
      s_closed_pending.trace ++
        [.m_addfriend_norequest (toxprpl_tox_hex_string_to_id libc_strict key_ab),
         .purple_prpl_got_user_status key_ab (some "tox_online".toList)] ∧
    (toxprpl_add_to_buddylist toxcore libc_strict m_one_friend s_closed_pending key_ab).blist =
      [{ node := 0, name := key_ab, local_alias := some "bob".toList, proto_data := some 0 }] := by
  refine ⟨rfl, rfl, ?_, ?_⟩ <;> rfl

/-- C14 as stated is false: a second `toxprpl_login`, made for the connection 2 while
the session of the connection 1 is still logged in, replaces `g_tox_gc`,
leaves four timers registered instead of two and calls `DHT_bootstrap` a
second time. -/
theorem toxprpl_login_twice_not_rejected :
    (toxprpl_login libc_strict m_one_friend s_boot 1).g_tox_gc = some 1 ∧
    (toxprpl_login libc_strict m_one_friend s_boot 1).timers.length = 2 ∧
    (toxprpl_login libc_strict m_one_friend
      (toxprpl_login libc_strict m_one_friend s_boot 1) 2).g_tox_gc = some 2 ∧
    (toxprpl_login libc_strict m_one_friend
      (toxprpl_login libc_strict m_one_friend s_boot 1) 2).timers.length = 4 ∧
    ((toxprpl_login libc_strict m_one_friend
      (toxprpl_login libc_strict m_one_friend s_boot 1) 2).trace.countP
        Event.is_bootstrap) = 2 := by
  refine ⟨rfl, rfl, rfl, rfl, ?_⟩
  decide

/-- C14, amended: `toxprpl_login` has no guard on an existing session. Whenever
`initMessenger` returns an instance, whatever `g_tox_gc` holds, the login
registers the five callbacks, sets `g_tox_gc` to the new connection, loads a
stored library state, reports progress 0 of 2, bootstraps the instance, and
registers one more pair of timers whose handles overwrite the two stored
ones; timers registered before stay registered. -/
theorem toxprpl_login_no_guard (libc : List Char → Option Nat) (m : Messenger) (s : State)
    (gc : Nat) (hm : m.initMessenger = true) :
    (toxprpl_login libc m s gc).g_tox_gc = some gc ∧
    (toxprpl_login libc m s gc).timers = s.timers ++
      [{ handle := s.next_timer, interval_ms := 100, callback := .tox_messenger_loop,
         data := gc },
       { handle := s.next_timer + 1, interval_ms := 2000, callback := .tox_connection_check,
         data := gc }] ∧
    (toxprpl_login libc m s gc).g_tox_messenger_timer = s.next_timer ∧
    (toxprpl_login libc m s gc).g_tox_connection_timer = s.next_timer + 1 ∧
    (toxprpl_login libc m s gc).trace = s.trace ++
      [.initMessenger, .m_callback .on_incoming_message, .m_callback .on_nick_change,
       .m_callback .on_status_change, .m_callback .on_request,
       .m_callback .on_connectionstatus, .purple_connection_set_protocol_data gc] ++
      (match s.messenger with
        | some msg_data => if msg_data.length > 0 then [.Messenger_load msg_data] else []
        | none => []) ++
      [.purple_connection_update_progress "Connecting".toList 0 2,
       .DHT_bootstrap (s.dht_server.getD DEFAULT_SERVER_IP)
         (s.dht_server_port.getD DEFAULT_SERVER_PORT)
         (toxprpl_tox_hex_string_to_id libc (s.dht_server_key.getD DEFAULT_SERVER_KEY))] := by
  unfold toxprpl_login
  have hm2 : ¬ m.initMessenger = false := by simp [hm]
  simp only [hm2, if_false]
  cases hmsg : s.messenger with
  | none => simp [State.emit, purple_timeout_add, hmsg]
  | some d =>
    by_cases hd : d.length > 0 <;> simp [State.emit, purple_timeout_add, hmsg, hd]

/-- C14, amended, at a login made while the connection 1 is logged in. -/
theorem toxprpl_login_no_guard_witness :
    (toxprpl_login libc_strict m_one_friend
      (toxprpl_login libc_strict m_one_friend s_boot 1) 2).g_tox_gc = some 2 :=
  (toxprpl_login_no_guard libc_strict m_one_friend
    (toxprpl_login libc_strict m_one_friend s_boot 1) 2 rfl).1

/-! ## Theorems: local status, messages -/

theorem status_from_id_loop_unknown (K : ToxHeader) (status_id : CString) :
    ∀ (rows : List toxprpl_status), (∀ r ∈ rows, r.id ≠ status_id) →
      status_from_id_loop K status_id rows = K.USERSTATUS_INVALID := by
  intro rows
  induction rows with
  | nil => intro _; rfl
  | cons r rest ih =>
    intro h
    have hr : ¬ r.id = status_id := h r (List.mem_cons_self _ _)
    simp only [status_from_id_loop, if_neg hr]
    exact ih (fun r2 h2 => h r2 (List.mem_cons_of_mem _ h2))

/-- C12: when `toxprpl_get_tox_status_from_id` maps the id to a status other than
`USERSTATUS_INVALID`, `toxprpl_set_status` calls `m_set_userstatus` once with
that status and then `m_set_statusmessage`, with the length of the message
plus one for the NUL, exactly when the message is present and not empty.
When the id maps to `USERSTATUS_INVALID` neither call is made; that is the
case for every id that is not in the table and, the value of
`USERSTATUS_INVALID` being 3, for the id of Offline. -/
theorem toxprpl_set_status_calls (K : ToxHeader) (s : State) (status_id : CString)
    (message : Option CString) :
    (toxprpl_get_tox_status_from_id K status_id ≠ K.USERSTATUS_INVALID →
      toxprpl_set_status K s status_id message =
        match message with
        | none => s.emit (.m_set_userstatus (toxprpl_get_tox_status_from_id K status_id))
        | some msg =>
          if msg.length > 0 then
            (s.emit (.m_set_userstatus (toxprpl_get_tox_status_from_id K status_id))).emit
              (.m_set_statusmessage msg (msg.length + 1))
          else s.emit (.m_set_userstatus (toxprpl_get_tox_status_from_id K status_id))) ∧
    (toxprpl_get_tox_status_from_id K status_id = K.USERSTATUS_INVALID →
      toxprpl_set_status K s status_id message = s) ∧
    ((∀ r ∈ toxprpl_statuses, r.id ≠ status_id) →
      toxprpl_set_status K s status_id message = s) ∧
    (K.USERSTATUS_INVALID = 3 →
      toxprpl_set_status K s "tox_offline".toList message = s) := by
  refine ⟨?_, ?_, ?_, ?_⟩
  · intro h
    simp only [toxprpl_set_status, if_neg h]
  · intro h
    simp only [toxprpl_set_status, if_pos h]
  · intro h
    have hinv : toxprpl_get_tox_status_from_id K status_id = K.USERSTATUS_INVALID := by
      unfold toxprpl_get_tox_status_from_id
      apply status_from_id_loop_unknown
      intro r hr
      exact h r (List.mem_of_mem_take hr)
    simp only [toxprpl_set_status, if_pos hinv]
  · intro h
    have hinv : toxprpl_get_tox_status_from_id K "tox_offline".toList = K.USERSTATUS_INVALID := by
      rw [h]
      simp [toxprpl_get_tox_status_from_id, status_from_id_loop, toxprpl_statuses,
        TOXPRPL_MAX_STATUS, TOXPRPL_STATUS_ONLINE, TOXPRPL_STATUS_BUSY,
        TOXPRPL_STATUS_OFFLINE]
    simp only [toxprpl_set_status, if_pos hinv]

/-- C12, at the header values of the library: Busy with the message `brb` sets the
status 2 and then the message with length 4; Offline makes no call. -/
theorem toxprpl_set_status_calls_witness :
    toxprpl_set_status toxcore s_fresh "tox_busy".toList (some "brb".toList) =
      (s_fresh.emit (.m_set_userstatus 2)).emit (.m_set_statusmessage "brb".toList 4) ∧
    toxprpl_set_status toxcore s_fresh "tox_offline".toList (some "brb".toList) = s_fresh :=
  ⟨(toxprpl_set_status_calls toxcore s_fresh "tox_busy".toList (some "brb".toList)).1
      (by decide),
   (toxprpl_set_status_calls toxcore s_fresh "tox_offline".toList (some "brb".toList)).2.2.2
      rfl⟩

/-- C15, at the failing input: two requests from `abab...ab` arrive before either
prompt is answered, so both raise a prompt; both are answered "yes" and the
library returns the handle 0 each time. The contact list then holds two
entries named `abab...ab`. -/
theorem toxprpl_add_to_buddylist_twice :
    s_two_prompts.trace.length = 2 ∧
    s_two_prompts.blist = [] ∧
    (toxprpl_add_to_buddylist toxcore libc_strict m_one_friend
      (toxprpl_add_to_buddylist toxcore libc_strict m_one_friend s_two_prompts key_ab)
      key_ab).blist =
      [{ node := 0, name := key_ab, local_alias := some "bob".toList, proto_data := some 0 },
       { node := 1, name := key_ab, local_alias := some "bob".toList, proto_data := some 0 }] := by
  refine ⟨rfl, rfl, rfl⟩

theorem toxprpl_send_im_cases (s : State) (who message : CString) :
    (purple_find_buddy s who = none → toxprpl_send_im s who message = (0, s)) ∧
    (∀ b, purple_find_buddy s who = some b → b.proto_data = none →
      toxprpl_send_im s who message = (0, s)) ∧
    (∀ b fnum, purple_find_buddy s who = some b → b.proto_data = some fnum →
      toxprpl_send_im s who message =
        (1, s.emit (.m_sendmessage fnum message (message.length + 1)))) := by
  refine ⟨?_, ?_, ?_⟩
  · intro h; simp [toxprpl_send_im, h]
  · intro b h hp; simp [toxprpl_send_im, h, hp]
  · intro b fnum h hp; simp [toxprpl_send_im, h, hp]

/-- C16, at the failing input: the contact `abab...ab` has the cached handle -1, the
record of a failed resolution. `toxprpl_send_im` tests the cache for `NULL`
only: it calls `m_sendmessage` with the handle -1 and returns 1. -/
theorem toxprpl_send_im_unresolved :
    purple_find_buddy s_unresolved key_ab =
      some { node := 0, name := key_ab, local_alias := none, proto_data := some (-1) } ∧
    toxprpl_send_im s_unresolved key_ab "hi".toList =
      (1, s_unresolved.emit (.m_sendmessage (-1) "hi".toList 3)) := by
  refine ⟨rfl, rfl⟩

/-! ## Theorems: inbound events -/

/-- C17 as stated is false: the friend 0 resolves to `abab...ab`, is connected and
has the raw status Away, so `toxprpl_get_status_index` derives Away; the
handler `on_connectionstatus` called with liveness 1 pushes the id of Online. -/
theorem on_connectionstatus_pushes_online :
    (m_away_friend.getclient_id 0).1 = 0 ∧
    toxprpl_statuses_id (toxprpl_get_status_index toxcore m_away_friend 0
      (m_away_friend.m_get_userstatus 0)) = some "tox_away".toList ∧
    on_connectionstatus m_away_friend s_fresh 0 1 =
      s_fresh.emit (.purple_prpl_got_user_status key_ab (some "tox_online".toList)) := by
  refine ⟨rfl, ?_, rfl⟩
  decide

/-- C17, amended: for every session handle that resolves to an identity and every
liveness value, the status id that `on_connectionstatus` pushes for that
identity is the table id of Online when the liveness value is 1 and the
table id of Offline otherwise, whatever the raw network status of the friend
is. -/
theorem on_connectionstatus_push (m : Messenger) (s : State) (gc : Nat) (fnum : Int)
    (status : Nat) (hgc : s.g_tox_gc = some gc) (hid : 0 ≤ (m.getclient_id fnum).1) :
    on_connectionstatus m s fnum status =
      s.emit (.purple_prpl_got_user_status
        (toxprpl_tox_bin_id_to_string (m.getclient_id fnum).2)
        (toxprpl_statuses_id
          (if status = 1 then TOXPRPL_STATUS_ONLINE else TOXPRPL_STATUS_OFFLINE))) := by
  have h : ¬ (m.getclient_id fnum).1 < 0 := by omega
  simp only [on_connectionstatus, if_neg h, got_user_status_of_gc, hgc]

/-- C17, amended, at a friend who disconnects while Away: Offline is pushed. -/
theorem on_connectionstatus_push_witness :
    on_connectionstatus m_away_friend s_fresh 0 0 =
      s_fresh.emit (.purple_prpl_got_user_status key_ab (some "tox_offline".toList)) :=
  on_connectionstatus_push m_away_friend s_fresh 1 0 0 rfl (by decide)

/-- C19: when `getclient_id` fails for the handle, each of `on_connectionstatus`,
`on_status_change`, `on_nick_change` and `on_incoming_message` returns with
the state as it was: no status is pushed, no alias is set and no message is
delivered. -/
theorem inbound_handlers_drop_unknown_handle (K : ToxHeader) (m : Messenger) (s : State)
    (fnum : Int) (status : Nat) (userstatus : Int) (data : CString) (length now : Nat)
    (hfail : (m.getclient_id fnum).1 < 0) :
    on_connectionstatus m s fnum status = s ∧
    on_status_change K m s fnum userstatus = s ∧
    on_nick_change m s fnum data length = s ∧
    on_incoming_message m s fnum data length now = s := by
  refine ⟨?_, ?_, ?_, ?_⟩
  · simp only [on_connectionstatus, if_pos hfail]
  · simp only [on_status_change, if_pos hfail]
  · simp only [on_nick_change, if_pos hfail]
    cases s.g_tox_gc <;> rfl
  · simp only [on_incoming_message, if_pos hfail]
    cases s.g_tox_gc <;> rfl

/-- C19, at a library that knows the friend 0 only and an event for the handle 5. -/
theorem inbound_handlers_drop_unknown_handle_witness :
    on_connectionstatus m_one_friend s_one_buddy 5 1 = s_one_buddy ∧
    on_status_change toxcore m_one_friend s_one_buddy 5 1 = s_one_buddy ∧
    on_nick_change m_one_friend s_one_buddy 5 "bob".toList 3 = s_one_buddy ∧
    on_incoming_message m_one_friend s_one_buddy 5 "bob".toList 3 0 = s_one_buddy :=
  inbound_handlers_drop_unknown_handle toxcore m_one_friend s_one_buddy 5 1 1 "bob".toList 3 0
    (by decide)

/-! ## Theorems: contact queries -/

theorem pushed_names_append (a b : List Event) :
    pushed_names (a ++ b) = pushed_names a ++ pushed_names b := by
  induction a with
  | nil => rfl
  | cons e rest ih => cases e <;> simp [pushed_names, ih]

theorem query_buddy_info_trace (K : ToxHeader) (libc : List Char → Option Nat) (m : Messenger)
    (s : State) (buddy : PurpleBuddy) :
    (∀ h, buddy.proto_data = some h →
      (toxprpl_query_buddy_info K libc m s buddy).trace = s.trace ++
        [.purple_prpl_got_user_status buddy.name (toxprpl_statuses_id
          (toxprpl_get_status_index K m h (m.m_get_userstatus h)))]) ∧
    (buddy.proto_data = none →
      (toxprpl_query_buddy_info K libc m s buddy).trace = s.trace ++
        [.getfriend_id (toxprpl_tox_hex_string_to_id libc buddy.name),
         .purple_prpl_got_user_status buddy.name (toxprpl_statuses_id
          (toxprpl_get_status_index K m
            (m.getfriend_id (toxprpl_tox_hex_string_to_id libc buddy.name))
            (m.m_get_userstatus
              (m.getfriend_id (toxprpl_tox_hex_string_to_id libc buddy.name)))))]) := by
  constructor
  · intro h hp
    simp only [toxprpl_query_buddy_info, hp]
    split <;> simp [purple_blist_alias_buddy, State.emit]
  · intro hp
    simp only [toxprpl_query_buddy_info, hp]
    split <;> simp [purple_blist_alias_buddy, purple_buddy_set_protocol_data, State.emit]

theorem query_buddy_info_pushed (K : ToxHeader) (libc : List Char → Option Nat) (m : Messenger)
    (s : State) (buddy : PurpleBuddy) :
    pushed_names (toxprpl_query_buddy_info K libc m s buddy).trace =
      pushed_names s.trace ++ [buddy.name] := by
  obtain ⟨h1, h2⟩ := query_buddy_info_trace K libc m s buddy
  cases hp : buddy.proto_data with
  | some h => rw [h1 h hp, pushed_names_append]; rfl
  | none => rw [h2 hp, pushed_names_append]; rfl

theorem foreach_query_pushed (K : ToxHeader) (libc : List Char → Option Nat) (m : Messenger) :
    ∀ (l : List PurpleBuddy) (s : State),
      pushed_names (g_slist_foreach_query K libc m l s).trace =
        pushed_names s.trace ++ l.map (fun b => b.name) := by
  intro l
  induction l with
  | nil => intro s; simp [g_slist_foreach_query]
  | cons b rest ih =>
    intro s
    simp only [g_slist_foreach_query]
    rw [ih, query_buddy_info_pushed]
    simp

theorem foreach_query_foldl (K : ToxHeader) (libc : List Char → Option Nat) (m : Messenger) :
    ∀ (l : List PurpleBuddy) (s : State),
      g_slist_foreach_query K libc m l s =
        l.foldl (fun st b => toxprpl_query_buddy_info K libc m st b) s := by
  intro l
  induction l with
  | nil => intro s; rfl
  | cons b rest ih => intro s; simp only [g_slist_foreach_query, List.foldl_cons]; exact ih _

theorem reconcile_nickname_pushed (m : Messenger) (s : State) :
    pushed_names (reconcile_nickname m s).trace = pushed_names s.trace := by
  unfold reconcile_nickname
  simp only []
  generalize (if m.getself_name.1 = 0 then ([] : CString) else m.getself_name.2) = our_name
  cases s.nickname with
  | none =>
    simp only []
    by_cases h : our_name.length > 0
    · rw [if_pos h]; simp only [State.emit]; rw [pushed_names_append]; simp [pushed_names]
    · rw [if_neg h]
  | some nick =>
    simp only []
    by_cases h : nick ≠ our_name
    · rw [if_pos h]; simp only [State.emit]
      rw [pushed_names_append, pushed_names_append]; simp [pushed_names]
    · rw [if_neg h]; simp only [State.emit]; rw [pushed_names_append]; simp [pushed_names]

/-- C18: a tick of `tox_connection_check` that finds the flag 1 with the probe true,
or the flag 0 with the probe false, returns the state as it was: no progress
report, no contact query, no change of user name or nickname. On the edge
from flag 0 with the probe true, `toxprpl_query_buddy_info` runs once on each
entry of the contact list, in list order, and the statuses pushed by the
tick are one for each entry. -/
theorem tox_connection_check_queries (K : ToxHeader) (libc : List Char → Option Nat)
    (m : Messenger) (s : State) :
    (s.g_connected = 1 → m.DHT_isconnected ≠ 0 → tox_connection_check K libc m s = s) ∧
    (s.g_connected = 0 → m.DHT_isconnected = 0 → tox_connection_check K libc m s = s) ∧
    (s.g_connected = 0 → m.DHT_isconnected ≠ 0 →
      tox_connection_check K libc m s = reconcile_nickname m
        ((s.blist.foldl (fun st b => toxprpl_query_buddy_info K libc m st b)
          ((({ s with g_connected := 1 } : State).emit
            (.purple_connection_update_progress "Connected".toList 1 2)).emit
            (.purple_connection_set_state .PURPLE_CONNECTED))).emit
          (.purple_account_set_username (bin_id_loop 32 m.self_public_key))) ∧
      pushed_names (tox_connection_check K libc m s).trace =
        pushed_names s.trace ++ s.blist.map (fun b => b.name)) := by
  refine ⟨?_, ?_, ?_⟩
  · intro h1 hp
    simp [tox_connection_check, h1, hp]
  · intro h0 hp
    simp [tox_connection_check, h0, hp]
  · intro h0 hp
    have hcond : s.g_connected = 0 ∧ m.DHT_isconnected ≠ 0 := ⟨h0, hp⟩
    have hrun : tox_connection_check K libc m s = reconcile_nickname m
        ((g_slist_foreach_query K libc m s.blist
          ((({ s with g_connected := 1 } : State).emit
            (.purple_connection_update_progress "Connected".toList 1 2)).emit
            (.purple_connection_set_state .PURPLE_CONNECTED))).emit
          (.purple_account_set_username (bin_id_loop 32 m.self_public_key))) := by
      simp only [tox_connection_check, if_pos hcond]
      rfl
    constructor
    · rw [hrun, foreach_query_foldl]
    · rw [hrun, reconcile_nickname_pushed]
      simp only [State.emit]
      rw [pushed_names_append, foreach_query_pushed]
      simp only [pushed_names_append]
      simp [pushed_names]

/-- C18, at a session whose list holds one contact: the edge pushes one status, for
that contact. -/
theorem tox_connection_check_queries_witness :
    pushed_names (tox_connection_check toxcore libc_strict m_one_friend
      { s_one_buddy with g_connected := 0 }).trace = [key_ab] :=
  ((tox_connection_check_queries toxcore libc_strict m_one_friend
    { s_one_buddy with g_connected := 0 }).2.2 rfl (by decide)).2

theorem find_map_node (f : PurpleBuddy → PurpleBuddy) (hf : ∀ b, (f b).node = b.node)
    (node : Nat) :
    ∀ (l : List PurpleBuddy),
      (l.map f).find? (fun b => b.node = node) =
        (l.find? (fun b => b.node = node)).map f := by
  intro l
  induction l with
  | nil => rfl
  | cons b rest ih =>
    by_cases hb : b.node = node
    · have hfb : (f b).node = node := by rw [hf]; exact hb
      simp [List.find?, hb, hfb]
    · have hfb : ¬ (f b).node = node := by rw [hf]; exact hb
      simp only [List.map_cons, List.find?, hb, hfb, decide_False]
      exact ih

theorem set_protocol_data_find (s : State) (node : Nat) (fnum : Int) (b : PurpleBuddy)
    (hfind : s.blist.find? (fun x => x.node = node) = some b) :
    (purple_buddy_set_protocol_data s node fnum).blist.find? (fun x => x.node = node) =
      some { b with proto_data := some fnum } := by
  have hb : b.node = node := by simpa using List.find?_some hfind
  simp only [purple_buddy_set_protocol_data]
  rw [find_map_node _ (by intro x; split <;> rfl), hfind]
  simp [hb]

theorem alias_buddy_find (s : State) (node : Nat) (a : CString) (b : PurpleBuddy)
    (hfind : s.blist.find? (fun x => x.node = node) = some b) :
    (purple_blist_alias_buddy s node a).blist.find? (fun x => x.node = node) =
      some { b with local_alias := some a } := by
  have hb : b.node = node := by simpa using List.find?_some hfind
  simp only [purple_blist_alias_buddy]
  rw [find_map_node _ (by intro x; split <;> rfl), hfind]
  simp [hb]

/-- After a query of the entry at `node`, the entry holds a handle: the one it held
before, or the answer of `getfriend_id`. -/
theorem query_buddy_info_at_cached (K : ToxHeader) (libc : List Char → Option Nat)
    (m : Messenger) (s : State) (node : Nat) (b : PurpleBuddy)
    (hfind : s.blist.find? (fun x => x.node = node) = some b) :
    ∃ b2, (toxprpl_query_buddy_info_at K libc m s node).blist.find?
        (fun x => x.node = node) = some b2 ∧
      b2.proto_data = some (match b.proto_data with
        | some h => h
        | none => m.getfriend_id (toxprpl_tox_hex_string_to_id libc b.name)) := by
  have hb : b.node = node := by simpa using List.find?_some hfind
  simp only [toxprpl_query_buddy_info_at, hfind, toxprpl_query_buddy_info]
  cases hp : b.proto_data with
  | some h =>
    simp only []
    split
    · have ha := alias_buddy_find
        (s.emit (.purple_prpl_got_user_status b.name (toxprpl_statuses_id
          (toxprpl_get_status_index K m h (m.m_get_userstatus h))))) node (m.getname h).2 b hfind
      rw [hb]
      exact ⟨_, ha, hp⟩
    · exact ⟨b, hfind, hp⟩
  | none =>
    simp only []
    have hset := set_protocol_data_find
      (s.emit (.getfriend_id (toxprpl_tox_hex_string_to_id libc b.name))) node
      (m.getfriend_id (toxprpl_tox_hex_string_to_id libc b.name)) b hfind
    split
    · have ha := alias_buddy_find
        ((purple_buddy_set_protocol_data
          (s.emit (.getfriend_id (toxprpl_tox_hex_string_to_id libc b.name))) node
          (m.getfriend_id (toxprpl_tox_hex_string_to_id libc b.name))).emit
          (.purple_prpl_got_user_status b.name (toxprpl_statuses_id
            (toxprpl_get_status_index K m
              (m.getfriend_id (toxprpl_tox_hex_string_to_id libc b.name))
              (m.m_get_userstatus
                (m.getfriend_id (toxprpl_tox_hex_string_to_id libc b.name)))))))
        node (m.getname (m.getfriend_id (toxprpl_tox_hex_string_to_id libc b.name))).2 _ hset
      rw [hb]
      exact ⟨_, ha, rfl⟩
    · rw [hb]
      exact ⟨_, hset, rfl⟩

theorem query_buddy_info_at_count (K : ToxHeader) (libc : List Char → Option Nat)
    (m : Messenger) (s : State) (node : Nat) (b : PurpleBuddy)
    (hfind : s.blist.find? (fun x => x.node = node) = some b) :
    (toxprpl_query_buddy_info_at K libc m s node).trace.countP Event.is_getfriend_id =
      s.trace.countP Event.is_getfriend_id + (if b.proto_data = none then 1 else 0) := by
  obtain ⟨h1, h2⟩ := query_buddy_info_trace K libc m s b
  simp only [toxprpl_query_buddy_info_at, hfind]
  cases hp : b.proto_data with
  | some h => rw [h1 h hp]; simp [List.countP_append, Event.is_getfriend_id]
  | none => rw [h2 hp]; simp [List.countP_append, List.countP_cons, Event.is_getfriend_id]

theorem query_sequence_cached (K : ToxHeader) (libc : List Char → Option Nat) (node : Nat) :
    ∀ (ms : List Messenger) (s : State) (b : PurpleBuddy) (h : Int),
      s.blist.find? (fun x => x.node = node) = some b → b.proto_data = some h →
      (query_sequence K libc ms s node).trace.countP Event.is_getfriend_id =
        s.trace.countP Event.is_getfriend_id := by
  intro ms
  induction ms with
  | nil => intro s b h _ _; rfl
  | cons m rest ih =>
    intro s b h hfind hp
    obtain ⟨b2, hfind2, hp2⟩ := query_buddy_info_at_cached K libc m s node b hfind
    simp only [hp] at hp2
    simp only [query_sequence]
    rw [ih _ b2 h hfind2 hp2, query_buddy_info_at_count K libc m s node b hfind]
    simp [hp]

/-- C20: `toxprpl_query_buddy_info` calls `getfriend_id` only for an entry without a
cached handle, and then stores the answer, whatever it is, on the entry; for
an entry with a cached handle it makes no such call and derives the status
from the cached handle. Over every sequence of queries of one entry of the
list, `getfriend_id` is called at most once. -/
theorem query_buddy_info_memoized (K : ToxHeader) (libc : List Char → Option Nat) :
    (∀ (m : Messenger) (s : State) (b : PurpleBuddy) (h : Int), b.proto_data = some h →
      (toxprpl_query_buddy_info K libc m s b).trace = s.trace ++
        [.purple_prpl_got_user_status b.name (toxprpl_statuses_id
          (toxprpl_get_status_index K m h (m.m_get_userstatus h)))]) ∧
    (∀ (m : Messenger) (s : State) (node : Nat) (b : PurpleBuddy),
      s.blist.find? (fun x => x.node = node) = some b → b.proto_data = none →
      (toxprpl_query_buddy_info_at K libc m s node).trace = s.trace ++
        [.getfriend_id (toxprpl_tox_hex_string_to_id libc b.name),
         .purple_prpl_got_user_status b.name (toxprpl_statuses_id
          (toxprpl_get_status_index K m
            (m.getfriend_id (toxprpl_tox_hex_string_to_id libc b.name))
            (m.m_get_userstatus
              (m.getfriend_id (toxprpl_tox_hex_string_to_id libc b.name)))))] ∧
      ∃ b2, (toxprpl_query_buddy_info_at K libc m s node).blist.find?
          (fun x => x.node = node) = some b2 ∧
        b2.proto_data = some (m.getfriend_id (toxprpl_tox_hex_string_to_id libc b.name))) ∧
    (∀ (ms : List Messenger) (s : State) (node : Nat),
      (∃ b ∈ s.blist, b.node = node) →
      (query_sequence K libc ms s node).trace.countP Event.is_getfriend_id ≤
        s.trace.countP Event.is_getfriend_id + 1) := by
  refine ⟨?_, ?_, ?_⟩
  · intro m s b h hp
    exact (query_buddy_info_trace K libc m s b).1 h hp
  · intro m s node b hfind hp
    constructor
    · have ht := (query_buddy_info_trace K libc m s b).2 hp
      simp only [toxprpl_query_buddy_info_at, hfind]
      exact ht
    · obtain ⟨b2, hfind2, hp2⟩ := query_buddy_info_at_cached K libc m s node b hfind
      simp only [hp] at hp2
      exact ⟨b2, hfind2, hp2⟩
  · intro ms s node hex
    obtain ⟨b0, hb0, hnode⟩ := hex
    have hsome : (s.blist.find? (fun x => x.node = node)).isSome := by
      simp only [List.find?_isSome]
      exact ⟨b0, hb0, by simp [hnode]⟩
    obtain ⟨b, hfind⟩ := Option.isSome_iff_exists.mp hsome
    cases ms with
    | nil => simp [query_sequence]
    | cons m rest =>
      obtain ⟨b2, hfind2, hp2⟩ := query_buddy_info_at_cached K libc m s node b hfind
      simp only [query_sequence]
      rw [query_sequence_cached K libc node rest _ b2 _ hfind2 hp2,
        query_buddy_info_at_count K libc m s node b hfind]
      split <;> omega

/-- C20, at three queries in a row of a contact that starts without a handle:
`getfriend_id` is called once. -/
theorem query_buddy_info_memoized_witness :
    (query_sequence toxcore libc_strict [m_one_friend, m_one_friend, m_one_friend]
      s_one_buddy 0).trace.countP Event.is_getfriend_id ≤ 1 :=
  (query_buddy_info_memoized toxcore libc_strict).2.2 [m_one_friend, m_one_friend, m_one_friend]
    s_one_buddy 0 ⟨_, List.mem_singleton.mpr rfl, rfl⟩

end ToxPrpl
